import Mathlib

/-!
# EventPlanner backend — verification of the specification against the code

Shallow embedding of the Django backend in `apps/v1/{accounts,plans,chat}`:
models become Lean structures, views become explicit state-passing functions
on a `DB` value, and the Python clock is passed in as an explicit argument
(`nowSec` in seconds for the auth / token subsystem, `nowUs` in microseconds
for the plan-list date filters).  Library crypto primitives (`hmac`,
`hashlib.sha256`) are external dependencies and are abstracted as a pair of
string functions (`HmacPrim`); everything else is translated line by line
from the source.
-/

namespace EventPlanner

/-! ## Values of the percent-decoded Telegram payload

`urllib.parse.parse_qs` yields `dict[str, list[str]]`; the view collapses
single-element lists to plain strings, so values seen by `check_auth` are
either strings or lists. -/

inductive Val where
  | s (v : String)
  | l (vs : List String)
deriving DecidableEq, Repr

/-- Python truthiness of a payload value (`if not hash_received`). -/
def Val.truthy : Val → Bool
  | .s v => v ≠ ""
  | .l vs => vs ≠ []

/-- `dict.get(k)` on an association list (dict keys are unique; first match). -/
def lookupVal (d : List (String × Val)) (k : String) : Option Val :=
  (d.find? (fun p => p.1 == k)).map (fun p => p.2)

/-- Abstracted `hmac.new(key, msg, hashlib.sha256)`: `.digest()` (raw bytes,
rendered as a string) and `.hexdigest()` (lowercase hex). -/
structure HmacPrim where
  digest : String → String → String
  hexdigest : String → String → String

/-- `hmac.compare_digest` on two strings: constant-time equality, which is
semantically plain equality. -/
def compareDigest (a b : String) : Bool := a == b

/-- The `data_check` list built by `check_auth`: every field except `hash`,
taking the head of list values (`value[0]`, an `IndexError` on an empty
list). -/
def dataCheckPairs : List (String × Val) → Except String (List (String × String))
  | [] => .ok []
  | (k, v) :: rest =>
      if k == "hash" then dataCheckPairs rest
      else
        match v with
        | .s str => do
            let tail ← dataCheckPairs rest
            .ok ((k, str) :: tail)
        | .l [] => .error "IndexError"
        | .l (x :: _) => do
            let tail ← dataCheckPairs rest
            .ok ((k, x) :: tail)

/-- Stable insertion of a pair into a key-sorted list (ties keep original
order, like Python's stable `list.sort(key=...)`). -/
def sortedInsert (x : String × String) : List (String × String) → List (String × String)
  | [] => [x]
  | y :: ys => if x.1 ≤ y.1 then x :: y :: ys else y :: sortedInsert x ys

/-- `data_check.sort(key=lambda x: x[0])`. -/
def sortPairs : List (String × String) → List (String × String)
  | [] => []
  | x :: xs => sortedInsert x (sortPairs xs)

/-- `"\n".join([f"{k}={v}" for k, v in data_check])`. -/
def joinAuthStr (ps : List (String × String)) : String :=
  String.intercalate "\n" (ps.map (fun p => p.1 ++ "=" ++ p.2))

/-- Digit run to a number; `none` if empty or a non-digit appears. -/
def digitsToNat? (cs : List Char) : Option Nat :=
  if cs.isEmpty then none
  else cs.foldl (fun acc c => match acc with
    | none => none
    | some n => if c.isDigit then some (n * 10 + (c.toNat - 48)) else none) (some 0)

/-- `str.strip()`: drop leading and trailing whitespace. -/
def pyStrip (cs : List Char) : List Char :=
  ((cs.dropWhile Char.isWhitespace).reverse.dropWhile Char.isWhitespace).reverse

/-- `str.strip()` on a string value. -/
def pyStripStr (s : String) : String :=
  String.mk (pyStrip s.data)

/-- Python `int(str)`: optional surrounding whitespace, optional sign,
then a non-empty digit run. -/
def pyParseInt (s : String) : Option Int :=
  match pyStrip s.data with
  | '-' :: rest => (digitsToNat? rest).map (fun n => -(n : Int))
  | '+' :: rest => (digitsToNat? rest).map (fun n => (n : Int))
  | cs => (digitsToNat? cs).map (fun n => (n : Int))

/-- `int(init_data.get("auth_date", 0))`: the integer default passes through
`int` unchanged; a string is parsed (`ValueError` on failure); calling `int`
on a list is a `TypeError`. -/
def pyIntOfVal : Option Val → Except String Int
  | none => .ok 0
  | some (.s v) =>
      match pyParseInt v with
      | some n => .ok n
      | none => .error "ValueError"
  | some (.l _) => .error "TypeError"

/-- `apps/v1/accounts/utils.py::check_auth`, translated line by line.
An `Except.error` models an uncaught Python exception. -/
def check_auth (H : HmacPrim) (init_data : List (String × Val))
    (bot_token : String) (nowSec : Int) : Except String Bool :=
  let hash_received := (lookupVal init_data "hash").getD (.s "")
  if hash_received.truthy = false then .ok false
  else do
    let pairs ← dataCheckPairs init_data
    let auth_str := joinAuthStr (sortPairs pairs)
    let secret_key := H.digest "WebAppData" bot_token
    let hash_calculated := H.hexdigest secret_key auth_str
    let hr ← match hash_received with
      | .s v => Except.ok v
      | .l _ => Except.error "TypeError"
    if compareDigest hash_calculated hr = false then .ok false
    else do
      let auth_date ← pyIntOfVal (lookupVal init_data "auth_date")
      if nowSec - auth_date > 86400 then .ok false else .ok true

/-! Spec-side rendering of the data-check string, for the refinement
statement of the authentication claim.  Following the spec's words:
"data-check string = every field except `hash`, rendered `key=value`,
sorted ascending by key, newline-joined; secret key = HMAC-SHA256(key=
\"WebAppData\", message=bot token); expected hash = hexadecimal HMAC-SHA256
(key=secret key, message=data-check string)". -/

def specDataCheckString (fields : List (String × String)) : String :=
  joinAuthStr (sortPairs (fields.filter (fun p => p.1 ≠ "hash")))

def specExpectedHash (H : HmacPrim) (botToken : String)
    (fields : List (String × String)) : String :=
  H.hexdigest (H.digest "WebAppData" botToken) (specDataCheckString fields)

/-- A payload all of whose values are plain strings (what the view's
collapse step produces for ordinary single-valued Telegram payloads). -/
def strData (fields : List (String × String)) : List (String × Val) :=
  fields.map (fun p => (p.1, Val.s p.2))

/-- `dict.get(k)` over the plain-string field list. -/
def lookupStr (fields : List (String × String)) (k : String) : Option String :=
  (fields.find? (fun p => p.1 == k)).map (fun p => p.2)

/-! ## Persistent rows (`accounts/models.py`, `plans/models.py`,
`chat/models.py`) -/

/-- `accounts/models.py::CustomUser` (fields touched by the embedded
operations). -/
structure UserRow where
  uid : Nat
  tg_id : Option Int
  telegram_id : Option Int
  username : String
  first_name : String
  last_name : String
  telegram_username : String
  phone : Option String
  avatar : Option String
deriving DecidableEq, Repr

/-- `plans/models.py::Plan`.  `datetimeUs`/`createdAtUs` are the
`datetime`/`created_at` columns as microseconds on a linear timeline. -/
structure PlanRow where
  pid : Nat
  emoji : String
  name : String
  location : String
  datetimeUs : Int
  userId : Nat
  user_plan_number : Nat
  createdAtUs : Int
deriving DecidableEq, Repr

/-- `plans/models.py::PlanUser.Status`. -/
inductive PUStatus where
  | pending
  | approved
  | rejected
  | removedIntoChatGroup
deriving DecidableEq, Repr

/-- `plans/models.py::PlanUser` (unique together `(plan, user)`). -/
structure PlanUserRow where
  puid : Nat
  planId : Nat
  userId : Nat
  status : PUStatus
deriving DecidableEq, Repr

/-- `plans/models.py::GenerateTokenPlan`.  `expires_at` is seconds on a
linear timeline (`None` = no expiry). -/
structure TokenRow where
  tokId : String
  token : String
  planId : Nat
  createdBy : Nat
  expires_at : Option Int
  max_uses : Int
  current_uses : Int
  is_active : Bool
deriving DecidableEq, Repr

/-- `chat/models.py::ChatRoom` (`plan` is one-to-one, `user` the owner). -/
structure RoomRow where
  rid : Nat
  planId : Nat
  userId : Nat
deriving DecidableEq, Repr

/-- `chat/models.py::ChatRoomGroup` — a roster entry (unique together
`(user, room)`). -/
structure GroupRow where
  gid : Nat
  userId : Nat
  roomId : Nat
deriving DecidableEq, Repr

/-- The relational store, with fresh-id counters for autoincrement keys. -/
structure DB where
  users : List UserRow
  plans : List PlanRow
  planUsers : List PlanUserRow
  tokens : List TokenRow
  rooms : List RoomRow
  roomGroups : List GroupRow
  nextUserId : Nat
  nextPlanId : Nat
  nextPlanUserId : Nat
  nextRoomId : Nat
  nextGroupId : Nat
deriving DecidableEq, Repr

/-! ## Invite-token behaviour (`plans/models.py::GenerateTokenPlan`) -/

/-- Python truthiness of `self.expires_at and timezone.now() > self.expires_at`. -/
def expiryPassed (expires_at : Option Int) (nowSec : Int) : Bool :=
  match expires_at with
  | some e => nowSec > e
  | none => false

/-- `GenerateTokenPlan.is_valid`. -/
def TokenRow.is_valid (t : TokenRow) (nowSec : Int) : Bool :=
  if t.is_active = false then false
  else if expiryPassed t.expires_at nowSec then false
  else if t.current_uses ≥ t.max_uses then false
  else true

/-- `GenerateTokenPlan.can_be_used`. -/
def TokenRow.can_be_used (t : TokenRow) (nowSec : Int) : Bool :=
  t.is_valid nowSec

/-- `str(self.id).replace('-', '')[:32]`. -/
def deriveToken (idStr : String) : String :=
  String.mk ((idStr.data.filter (fun c => c ≠ '-')).take 32)

/-- `GenerateTokenPlan.save` — derives the token string when absent and
applies the auto-deactivation checks (expiry, exhaustion) on every save. -/
def TokenRow.saveRow (t : TokenRow) (nowSec : Int) : TokenRow :=
  let t1 := if t.token = "" then { t with token := deriveToken t.tokId } else t
  let t2 := if t1.is_active ∧ expiryPassed t1.expires_at nowSec then
      { t1 with is_active := false } else t1
  if t2.is_active ∧ t2.current_uses ≥ t2.max_uses then
    { t2 with is_active := false }
  else t2

/-- `GenerateTokenPlan.use_token` — returns the Python result together with
the row as it stands after the method (the row is unchanged on failure). -/
def TokenRow.use_token (t : TokenRow) (nowSec : Int) : Bool × TokenRow :=
  if t.can_be_used nowSec = false then (false, t)
  else
    let t1 := { t with current_uses := t.current_uses + 1 }
    let t2 := if t1.current_uses ≥ t1.max_uses then { t1 with is_active := false } else t1
    (true, t2.saveRow nowSec)

/-- Replace the stored row carrying `tokId` with `t'` (the ORM `save`
writing back by primary key). -/
def DB.writeToken (db : DB) (t' : TokenRow) : DB :=
  { db with tokens := db.tokens.map (fun t => if t.tokId == t'.tokId then t' else t) }

/-! ## Calendar arithmetic

The Python side compares `datetime` values; on the linear-microsecond
timeline civil dates are mapped with the standard days-from-civil
conversion (proleptic Gregorian, epoch 1970-01-01). -/

def usPerDay : Int := 86400000000

/-- Days since 1970-01-01 of a civil date. -/
def daysFromCivil (y : Int) (m d : Nat) : Int :=
  let y1 : Int := if m ≤ 2 then y - 1 else y
  let era : Int := (if y1 ≥ 0 then y1 else y1 - 399) / 400
  let yoe : Int := y1 - era * 400
  let mp : Int := ((m : Int) + 9) % 12
  let doy : Int := (153 * mp + 2) / 5 + (d : Int) - 1
  let doe : Int := yoe * 365 + yoe / 4 - yoe / 100 + doy
  era * 146097 + doe - 719468

/-- Civil date of a day count since 1970-01-01. -/
def civilFromDays (z0 : Int) : Int × Nat × Nat :=
  let z : Int := z0 + 719468
  let era : Int := (if z ≥ 0 then z else z - 146096) / 146097
  let doe : Int := z - era * 146097
  let yoe : Int := (doe - doe / 1460 + doe / 36524 - doe / 146096) / 365
  let y : Int := yoe + era * 400
  let doy : Int := doe - (365 * yoe + yoe / 4 - yoe / 100)
  let mp : Int := (5 * doy + 2) / 153
  let d : Int := doy - (153 * mp + 2) / 5 + 1
  let m : Int := if mp < 10 then mp + 3 else mp - 9
  (if m ≤ 2 then y + 1 else y, m.toNat, d.toNat)

def isLeap (y : Int) : Bool :=
  (y % 4 == 0 && y % 100 != 0) || (y % 400 == 0)

def daysInMonth (y : Int) (m : Nat) : Nat :=
  if m = 2 then (if isLeap y then 29 else 28)
  else if m = 4 ∨ m = 6 ∨ m = 9 ∨ m = 11 then 30
  else 31

/-- All-digit run of length between `lo` and `hi`, as a number. -/
def fixedDigits? (cs : List Char) (lo hi : Nat) : Option Nat :=
  if lo ≤ cs.length ∧ cs.length ≤ hi then digitsToNat? cs else none

/-- Split a character list on a separator character (like
`str.split('-')`). -/
def splitOnChar (sep : Char) (cs : List Char) : List (List Char) :=
  match cs with
  | [] => [[]]
  | c :: rest =>
      let groups := splitOnChar sep rest
      if c = sep then [] :: groups
      else
        match groups with
        | [] => [[c]]
        | g :: gs => (c :: g) :: gs

/-- `datetime.strptime(s, '%Y-%m-%d')`: a 4-digit year, a 1-2 digit month
in 1..12, a 1-2 digit day valid for that month, nothing else in the
string; `none` models the `ValueError` the views swallow. -/
def strptimeDate (s : String) : Option (Int × Nat × Nat) :=
  match splitOnChar '-' s.data with
  | [ys, ms, ds] => do
      let y ← fixedDigits? ys 4 4
      let m ← fixedDigits? ms 1 2
      let d ← fixedDigits? ds 1 2
      if 1 ≤ y ∧ 1 ≤ m ∧ m ≤ 12 ∧ 1 ≤ d ∧ d ≤ daysInMonth (y : Int) m then
        some ((y : Int), m, d)
      else none
  | _ => none

/-- Midnight of a parsed civil date, in microseconds. -/
def dayStartUs (ymd : Int × Nat × Nat) : Int :=
  daysFromCivil ymd.1 ymd.2.1 ymd.2.2 * usPerDay

/-! ## `plans/views.py::PlanListAPIView.get` -/

/-- Query parameters of the list endpoint (absent or present-as-string). -/
structure ListParams where
  filter_type : Option String
  date : Option String
  start_date : Option String
  end_date : Option String
deriving DecidableEq, Repr

/-- Python truthiness of an optional query-string value. -/
def optTruthy : Option String → Bool
  | some s => s ≠ ""
  | none => false

/-- The date-filtering pipeline the view applies identically to both
buckets, translated branch by branch. -/
def planListFilter (p : ListParams) (nowUs : Int) (plans : List PlanRow) :
    List PlanRow :=
  if p.filter_type == some "new" then
    let twoDaysAgo := nowUs - 2 * usPerDay
    plans.filter (fun pl => decide (pl.createdAtUs ≥ twoDaysAgo))
  else if p.filter_type == some "date" ||
      (!optTruthy p.filter_type &&
        (optTruthy p.date || optTruthy p.start_date || optTruthy p.end_date)) then
    if optTruthy p.date then
      match strptimeDate (p.date.getD "") with
      | some ymd =>
          let startOfDay := dayStartUs ymd
          let endOfDay := startOfDay + 86399999999
          plans.filter (fun pl =>
            decide (startOfDay ≤ pl.datetimeUs) && decide (pl.datetimeUs ≤ endOfDay))
      | none => plans
    else
      let plans1 := if optTruthy p.start_date then
          match strptimeDate (p.start_date.getD "") with
          | some ymd => plans.filter (fun pl => decide (dayStartUs ymd ≤ pl.datetimeUs))
          | none => plans
        else plans
      if optTruthy p.end_date then
        match strptimeDate (p.end_date.getD "") with
        | some ymd =>
            let endBound := dayStartUs ymd + 86399000000
            plans1.filter (fun pl => decide (pl.datetimeUs ≤ endBound))
        | none => plans1
      else plans1
  else plans

/-- The "approved and yours" bucket: plans the caller owns or holds an
approved membership on. -/
def approvedAndYours (db : DB) (uid : Nat) : List PlanRow :=
  db.plans.filter (fun p =>
    p.userId == uid ||
    db.planUsers.any (fun pu =>
      pu.planId == p.pid && pu.userId == uid && pu.status == PUStatus.approved))

/-- The "pending" bucket: plans where the caller's membership is pending. -/
def pendingBucket (db : DB) (uid : Nat) : List PlanRow :=
  db.plans.filter (fun p =>
    db.planUsers.any (fun pu =>
      pu.planId == p.pid && pu.userId == uid && pu.status == PUStatus.pending))

/-- `PlanListAPIView.get`: build the two buckets and run the date filters
over each. -/
def planListGet (db : DB) (uid : Nat) (p : ListParams) (nowUs : Int) :
    List PlanRow × List PlanRow :=
  (planListFilter p nowUs (approvedAndYours db uid),
   planListFilter p nowUs (pendingBucket db uid))

/-! ## Membership and roster upserts -/

/-- `PlanUser.objects.get_or_create(plan=…, user=…, defaults={'status': …})`.
Returns the row, the `created` flag and the new store. -/
def getOrCreatePlanUser (db : DB) (planId userId : Nat) (defStatus : PUStatus) :
    PlanUserRow × Bool × DB :=
  match db.planUsers.find? (fun r => r.planId == planId && r.userId == userId) with
  | some r => (r, false, db)
  | none =>
      let r : PlanUserRow :=
        { puid := db.nextPlanUserId, planId := planId, userId := userId, status := defStatus }
      (r, true,
       { db with planUsers := db.planUsers ++ [r],
                 nextPlanUserId := db.nextPlanUserId + 1 })

/-- Write back a membership row by primary key (`plan_user.save(...)`). -/
def DB.writePlanUser (db : DB) (r' : PlanUserRow) : DB :=
  { db with planUsers := db.planUsers.map (fun r => if r.puid == r'.puid then r' else r) }

/-- `PlanUser.objects.update_or_create(plan=…, user=…, defaults={'status': …})`. -/
def updateOrCreatePlanUser (db : DB) (planId userId : Nat) (newStatus : PUStatus) :
    PlanUserRow × DB :=
  match db.planUsers.find? (fun r => r.planId == planId && r.userId == userId) with
  | some r =>
      let r' := { r with status := newStatus }
      (r', db.writePlanUser r')
  | none =>
      let r : PlanUserRow :=
        { puid := db.nextPlanUserId, planId := planId, userId := userId, status := newStatus }
      (r, { db with planUsers := db.planUsers ++ [r],
                    nextPlanUserId := db.nextPlanUserId + 1 })

/-- `ChatRoomGroup.objects.get_or_create(user=…, room=…)`. -/
def getOrCreateGroup (db : DB) (userId roomId : Nat) : Bool × DB :=
  match db.roomGroups.find? (fun g => g.userId == userId && g.roomId == roomId) with
  | some _ => (false, db)
  | none =>
      let g : GroupRow := { gid := db.nextGroupId, userId := userId, roomId := roomId }
      (true,
       { db with roomGroups := db.roomGroups ++ [g],
                 nextGroupId := db.nextGroupId + 1 })

/-! ## Plan creation (`Plan.save`, the `post_save` signal, and
`plans/views.py::PlanCreateAPIView.post`) -/

/-- `Plan.save` on a fresh row: `user_plan_number` := count of the
creator's existing plans + 1 (`plans/models.py` lines 37-41). -/
def planSaveNew (db : DB) (userId : Nat) (emoji name location : String)
    (dtUs createdUs : Int) : PlanRow × DB :=
  let userPlansCount := (db.plans.filter (fun p => p.userId == userId)).length
  let pl : PlanRow :=
    { pid := db.nextPlanId, emoji := emoji, name := name, location := location,
      datetimeUs := dtUs, userId := userId,
      user_plan_number := userPlansCount + 1, createdAtUs := createdUs }
  (pl, { db with plans := db.plans ++ [pl], nextPlanId := db.nextPlanId + 1 })

/-- `plans/signals.py::ensure_creator_approved`: on every fresh plan insert,
get-or-create the creator's membership as approved and force it approved if
it already existed. -/
def ensureCreatorApproved (db : DB) (pl : PlanRow) : DB :=
  let (pu, created, db1) := getOrCreatePlanUser db pl.pid pl.userId PUStatus.approved
  if created then db1
  else db1.writePlanUser { pu with status := PUStatus.approved }

/-- `PlanCreateAPIView.post` after payload validation: create the plan
(which fires the signal), get-or-create the creator's approved membership,
create the bound chat room and the creator's roster entry. -/
def planCreatePost (db : DB) (callerId : Nat) (emoji name location : String)
    (dtUs createdUs : Int) : PlanRow × DB :=
  let (pl, db1) := planSaveNew db callerId emoji name location dtUs createdUs
  let db2 := ensureCreatorApproved db1 pl
  let (pu, created, db3) := getOrCreatePlanUser db2 pl.pid callerId PUStatus.approved
  let db4 := if created = false ∧ pl.userId = callerId then
      db3.writePlanUser { pu with status := PUStatus.approved }
    else db3
  let room : RoomRow := { rid := db4.nextRoomId, planId := pl.pid, userId := callerId }
  let db5 := { db4 with rooms := db4.rooms ++ [room], nextRoomId := db4.nextRoomId + 1 }
  let g : GroupRow := { gid := db5.nextGroupId, userId := callerId, roomId := room.rid }
  let db6 := { db5 with roomGroups := db5.roomGroups ++ [g],
                        nextGroupId := db5.nextGroupId + 1 }
  (pl, db6)

/-! ## Approve / reject (`plans/views.py::PlanApproveAPIView.put`,
`PlanRejectAPIView.put`) -/

inductive MembershipResp where
  | ok (pu : PlanUserRow)
  | planNotFound
deriving DecidableEq, Repr

/-- `PlanApproveAPIView.put` (after serializer validation): look the plan
up (400 if absent), upsert the caller's membership to approved, then
idempotently join the caller to the plan's chat room when one exists. -/
def planApprovePut (db : DB) (callerId planId : Nat) : MembershipResp × DB :=
  match db.plans.find? (fun p => p.pid == planId) with
  | none => (.planNotFound, db)
  | some _ =>
      let (pu, db1) := updateOrCreatePlanUser db planId callerId PUStatus.approved
      let db2 := match db1.rooms.find? (fun r => r.planId == planId) with
        | some room => (getOrCreateGroup db1 callerId room.rid).2
        | none => db1
      (.ok pu, db2)

/-- `PlanRejectAPIView.put`: identical shape, with status rejected —
including the same get-or-create of the caller's roster entry. -/
def planRejectPut (db : DB) (callerId planId : Nat) : MembershipResp × DB :=
  match db.plans.find? (fun p => p.pid == planId) with
  | none => (.planNotFound, db)
  | some _ =>
      let (pu, db1) := updateOrCreatePlanUser db planId callerId PUStatus.rejected
      let db2 := match db1.rooms.find? (fun r => r.planId == planId) with
        | some room => (getOrCreateGroup db1 callerId room.rid).2
        | none => db1
      (.ok pu, db2)

/-! ## Plan deletion (`plans/views.py::PlanDeleteAPIView.delete`) -/

inductive DeleteResp where
  | ok
  | notFound
  | forbidden
deriving DecidableEq, Repr

/-- Cascade delete of a plan: memberships, tokens, the chat room, and the
roster entries of that room go with it. -/
def cascadeDeletePlan (db : DB) (planId : Nat) : DB :=
  let doomedRooms := db.rooms.filter (fun r => r.planId == planId)
  { db with
    plans := db.plans.filter (fun p => !(p.pid == planId)),
    planUsers := db.planUsers.filter (fun r => !(r.planId == planId)),
    tokens := db.tokens.filter (fun t => !(t.planId == planId)),
    rooms := db.rooms.filter (fun r => !(r.planId == planId)),
    roomGroups := db.roomGroups.filter
      (fun g => !(doomedRooms.any (fun r => r.rid == g.roomId))) }

/-- `PlanDeleteAPIView.delete`: 404 if absent, 403 unless the caller is
the creator, else cascade delete. -/
def planDeleteView (db : DB) (callerId planId : Nat) : DeleteResp × DB :=
  match db.plans.find? (fun p => p.pid == planId) with
  | none => (.notFound, db)
  | some pl =>
      if pl.userId ≠ callerId then (.forbidden, db)
      else (.ok, cascadeDeletePlan db planId)

/-! ## Member eviction (`chat/views.py::RemoveUserFromRoomAPIView.delete`) -/

inductive RemoveResp where
  | ok (roomId removedUserId planId : Nat)
  | notFound
  | forbidden (msg : String)
  | badRequest (msg : String)
  | integrityError
deriving DecidableEq, Repr

/-- `RemoveUserFromRoomAPIView.delete`, translated check by check.
`integrityError` marks a dangling room→plan foreign key, impossible in a
referentially intact store. -/
def removeUserFromRoomDelete (db : DB) (callerId roomId targetId : Nat) :
    RemoveResp × DB :=
  match db.rooms.find? (fun r => r.rid == roomId) with
  | none => (.notFound, db)
  | some room =>
      match db.plans.find? (fun p => p.pid == room.planId) with
      | none => (.integrityError, db)
      | some plan =>
          if plan.userId ≠ callerId then
            (.forbidden "Только создатель плана может удалять пользователей из чат комнаты.", db)
          else if targetId = callerId then
            (.badRequest "Вы не можете удалить себя из комнаты.", db)
          else
            match db.users.find? (fun u => u.uid == targetId) with
            | none => (.notFound, db)
            | some _ =>
                match db.roomGroups.find?
                    (fun g => g.roomId == roomId && g.userId == targetId) with
                | none => (.badRequest "Пользователь не найден в этой чат комнате.", db)
                | some grp =>
                    let (pu, created, db1) :=
                      getOrCreatePlanUser db plan.pid targetId PUStatus.removedIntoChatGroup
                    let db2 := if created then db1
                      else db1.writePlanUser { pu with status := PUStatus.removedIntoChatGroup }
                    let db3 := { db2 with
                      roomGroups := db2.roomGroups.filter (fun g => !(g.gid == grp.gid)) }
                    (.ok roomId targetId plan.pid, db3)

/-! ## Telegram authentication (`accounts/views.py::TelegramAuthAPIView.post`) -/

/-- The parsed `user` JSON object, as far as the view reads it
(`json.loads` itself is a library boundary, abstracted below). -/
structure UserData where
  id : Option Int
  username : Option String
  first_name : Option String
  last_name : Option String
  photo_url : Option String
  phone_number : Option String
deriving DecidableEq, Repr

/-- Abstracted standard-library boundary of the auth view:
`urllib.parse.parse_qs` and `json.loads` (`none` = `JSONDecodeError`). -/
structure ParseLib where
  parseQs : String → List (String × List String)
  jsonLoads : String → Option UserData

/-- Process settings relevant to the embedded views. -/
structure Config where
  telegramBotToken : String
  botName : Option String
deriving DecidableEq, Repr

/-- The view's dict comprehension: collapse single-element value lists. -/
def collapseParsed (parsed : List (String × List String)) : List (String × Val) :=
  parsed.map (fun p => match p.2 with
    | [v] => (p.1, Val.s v)
    | vs => (p.1, Val.l vs))

/-- The `defaults` dict of the user upsert, computed from the parsed
`user` object exactly as the view does. -/
def applyAuthDefaults (u : UserRow) (tid : Int) (ud : UserData) : UserRow :=
  let photoUrl := ud.photo_url.getD ""
  { u with
    username := ud.username.getD ("tg_" ++ toString tid),
    first_name := ud.first_name.getD "",
    last_name := ud.last_name.getD "",
    telegram_username := ud.username.getD "",
    phone := ud.phone_number,
    avatar := if photoUrl ≠ "" then some photoUrl else none,
    tg_id := some tid }

/-- `CustomUser.objects.update_or_create(tg_id=…, defaults=…)`. -/
def updateOrCreateUser (db : DB) (tid : Int) (ud : UserData) : UserRow × DB :=
  match db.users.find? (fun u => u.tg_id == some tid) with
  | some u =>
      let u' := applyAuthDefaults u tid ud
      (u', { db with users := db.users.map (fun w => if w.uid == u.uid then u' else w) })
  | none =>
      let base : UserRow :=
        { uid := db.nextUserId, tg_id := some tid, telegram_id := none,
          username := "", first_name := "", last_name := "",
          telegram_username := "", phone := none, avatar := none }
      let u' := applyAuthDefaults base tid ud
      (u', { db with users := db.users ++ [u'], nextUserId := db.nextUserId + 1 })

inductive AuthResp where
  | okTokens (userId : Nat)
  | badRequest (msg : String)
  | forbidden (msg : String)
  | serverError (msg : String)
deriving DecidableEq, Repr

/-- The error-message choice of the invalid-invite-token branch, in its
source order: deactivated, then expired, then use-limit reached, then
generic. -/
def tokenErrorMsg (t : TokenRow) (nowSec : Int) : String :=
  if t.is_active = false then "Этот токен приглашения деактивирован."
  else if expiryPassed t.expires_at nowSec then
    "Срок действия этого токена приглашения истек."
  else if t.current_uses ≥ t.max_uses then
    "Этот токен приглашения достиг максимального количества использований."
  else "Этот токен приглашения недействителен."

/-- The optional invite-token redemption block of the auth view. -/
def authInviteTokenStep (db : DB) (user : UserRow) (inviteToken : String)
    (nowSec : Int) : Option String × DB :=
  if inviteToken = "" then (none, db)
  else
    match db.tokens.find? (fun t => t.token == inviteToken) with
    | none => (none, db)
    | some tokenObj =>
        if tokenObj.can_be_used nowSec = false then
          (some (tokenErrorMsg tokenObj nowSec), db)
        else
          match db.plans.find? (fun p => p.pid == tokenObj.planId) with
          | none => (none, db)
          | some plan =>
              let defStatus := if plan.userId = user.uid then PUStatus.approved
                else PUStatus.pending
              let (pu, created, db1) := getOrCreatePlanUser db plan.pid user.uid defStatus
              let db2 := if created = false ∧ plan.userId = user.uid then
                  db1.writePlanUser { pu with status := PUStatus.approved }
                else db1
              let db3 := if created then
                  db2.writeToken (tokenObj.use_token nowSec).2
                else db2
              (none, db3)

/-- `TelegramAuthAPIView.post`, translated check by check.  The payload
string is percent-decoded by `L.parseQs` and the `user` field parsed by
`L.jsonLoads`; the bot token comes from settings. -/
def telegramAuthPost (H : HmacPrim) (L : ParseLib) (cfg : Config)
    (nowSec : Int) (db : DB) (initDataStr : String) (inviteTokenRaw : String) :
    AuthResp × DB :=
  let inviteToken := pyStripStr inviteTokenRaw
  if initDataStr = "" then (.badRequest "initData — обязательное поле.", db)
  else
    let parsed := L.parseQs initDataStr
    let processedData := collapseParsed parsed
    match lookupVal processedData "user" with
    | none => (.badRequest "Нет информации о пользователе", db)
    | some userVal =>
        if userVal.truthy = false then (.badRequest "Нет информации о пользователе", db)
        else
          match userVal with
          | .l _ => (.serverError "TypeError", db)
          | .s userJson =>
              match L.jsonLoads userJson with
              | none => (.badRequest "Неверный формат JSON", db)
              | some userData =>
                  match check_auth H processedData cfg.telegramBotToken nowSec with
                  | .error e => (.serverError e, db)
                  | .ok false => (.forbidden "Неправильная аутентификация Telegram", db)
                  | .ok true =>
                      match userData.id with
                      | none => (.badRequest "Требуется идентификатор Telegram", db)
                      | some tid =>
                          if tid = 0 then
                            (.badRequest "Требуется идентификатор Telegram", db)
                          else
                            let (user, db1) := updateOrCreateUser db tid userData
                            match authInviteTokenStep db1 user inviteToken nowSec with
                            | (some msg, db2) => (.badRequest msg, db2)
                            | (none, db2) => (.okTokens user.uid, db2)

/-! ## Date formatting (`strftime('%d.%m.%Y %H:%M')`) -/

def pad2 (n : Nat) : String :=
  if n < 10 then "0" ++ toString n else toString n

def pad4 (y : Int) : String :=
  if y < 10 then "000" ++ toString y
  else if y < 100 then "00" ++ toString y
  else if y < 1000 then "0" ++ toString y
  else toString y

/-- `dt.strftime('%d.%m.%Y %H:%M')` on a microsecond timestamp. -/
def strftimeDMYHM (tsUs : Int) : String :=
  let day := tsUs.ediv usPerDay
  let remUs := (tsUs.emod usPerDay).toNat
  let ymd := civilFromDays day
  let secsOfDay := remUs / 1000000
  pad2 ymd.2.2 ++ "." ++ pad2 ymd.2.1 ++ "." ++ pad4 ymd.1 ++ " " ++
    pad2 (secsOfDay / 3600) ++ ":" ++ pad2 (secsOfDay % 3600 / 60)

/-! ## Bulk invites (`plans/views.py::PlanFriendsBulkTokenAPIView.post`) -/

/-- Outcome of one `requests.post` to the Telegram `sendMessage` API — an
external boundary, abstracted per chat id. -/
inductive SendOutcome where
  | ok200
  | apiError (code : Nat) (desc : String)
  | exc (msg : String)
deriving DecidableEq, Repr

inductive BulkResp where
  | ok (sentCount totalUsers : Nat) (link : String) (errors : List String)
  | notFound
  | forbidden (msg : String)
  | badRequest (msg : String)
deriving DecidableEq, Repr

/-- Python `a or b` over strings. -/
def orStr (a b : String) : String := if a ≠ "" then a else b

/-- One iteration of the bulk view's membership loop: get-or-create the
membership (approved for the creator, pending otherwise) and force it
approved when it already existed and the target is the creator. -/
def bulkMembershipStep (plan : PlanRow) (acc : DB) (u : UserRow) : DB :=
  let defStatus := if plan.userId = u.uid then PUStatus.approved else PUStatus.pending
  let (pu, created, acc1) := getOrCreatePlanUser acc plan.pid u.uid defStatus
  if created = false ∧ plan.userId = u.uid then
    acc1.writePlanUser { pu with status := PUStatus.approved }
  else acc1

/-- The sender display name computed by the bulk view. -/
def senderNameOf (u : UserRow) : String :=
  let name := pyStripStr (orStr u.first_name "" ++ " " ++ orStr u.last_name "")
  if name ≠ "" then name
  else orStr u.username ("User " ++ toString u.uid)

/-- The per-target delivery loop: `tg_id or telegram_id` as chat id,
skipped with a collected error when falsy, otherwise one send whose
failure is collected without aborting. -/
def bulkSendLoop (delivery : Int → SendOutcome) (targets : List UserRow) :
    Nat × List String :=
  targets.foldl (fun acc u =>
    let chatId := match u.tg_id with
      | some t => if t ≠ 0 then some t else (u.telegram_id.filter (fun v => v ≠ 0))
      | none => u.telegram_id.filter (fun v => v ≠ 0)
    match chatId with
    | none => (acc.1, acc.2 ++
        ["User " ++ toString u.uid ++ " (" ++ u.first_name ++
         "): нет Telegram ID (пользователь не входил через Telegram)"])
    | some cid =>
        match delivery cid with
        | .ok200 => (acc.1 + 1, acc.2)
        | .apiError code desc => (acc.1, acc.2 ++
            ["User " ++ toString u.uid ++ " (tg_id=" ++ toString cid ++ "): " ++
             toString code ++ " — " ++ desc])
        | .exc msg => (acc.1, acc.2 ++
            ["User " ++ toString u.uid ++ ": " ++ msg])) (0, [])

/-- `PlanFriendsBulkTokenAPIView.post`.  `tokenId` stands for the
freshly drawn `uuid.uuid4()`; `delivery` abstracts the Telegram Bot API.
The shared token and the per-target memberships are created before the
bot-credential check, exactly as in the source. -/
def planFriendsBulkTokenPost (cfg : Config) (delivery : Int → SendOutcome)
    (db : DB) (caller : UserRow) (planId : Nat) (userIds : List Nat)
    (tokenId : String) (nowSec : Int) : BulkResp × DB :=
  match db.plans.find? (fun p => p.pid == planId) with
  | none => (.notFound, db)
  | some plan =>
      if plan.userId ≠ caller.uid then
        (.forbidden "Вы можете генерировать токены только для своих планов.", db)
      else
        let targets := db.users.filter (fun u => userIds.contains u.uid)
        if targets.length ≠ userIds.length then
          (.badRequest "Некоторые пользователи не найдены.", db)
        else
          let maxUses : Int := (userIds.length : Int) + 5
          let tokenStr := deriveToken tokenId
          let expiresAt := nowSec + 30 * 86400
          let tokenRow : TokenRow :=
            { tokId := tokenId, token := tokenStr, planId := plan.pid,
              createdBy := caller.uid, expires_at := some expiresAt,
              max_uses := maxUses, current_uses := 0, is_active := true }
          let db1 := { db with tokens := db.tokens ++ [tokenRow.saveRow nowSec] }
          let db2 := targets.foldl (bulkMembershipStep plan) db1
          let botNameStr := match cfg.botName with
            | some s => s
            | none => "None"
          let inviteLink :=
            "https://t.me/" ++ botNameStr ++ "/direclink?startapp=" ++ tokenStr
          if cfg.telegramBotToken = "" then
            (.badRequest
              "TELEGRAM_BOT_TOKEN не настроен. Добавьте токен бота в .env или настройки.",
             db2)
          else
            let (sentCount, errs) := bulkSendLoop delivery targets
            (.ok sentCount targets.length inviteLink errs, db2)

/-! ## Public token lookup (`plans/views.py::PlanTokenDetailAPIView.get`
with `GenerateTokenPlanSerializer`) -/

inductive JVal where
  | s (v : String)
  | nullv
deriving DecidableEq, Repr

/-- `GenerateTokenPlanSerializer.get_msg`'s creator display name. -/
def creatorNameOf (creator : UserRow) : String :=
  if creator.first_name ≠ "" ∧ creator.last_name ≠ "" then
    pyStripStr (creator.first_name ++ " " ++ creator.last_name)
  else if creator.first_name ≠ "" then creator.first_name
  else if creator.last_name ≠ "" then creator.last_name
  else orStr creator.first_name
    (orStr creator.last_name (orStr creator.username "Пользователь"))

/-- `GenerateTokenPlanSerializer`: fields are exactly
`('id', 'token', 'link', 'msg')`.  `none` marks a dangling foreign key. -/
def serializeGenerateTokenPlan (cfg : Config) (db : DB) (t : TokenRow) :
    Option (List (String × JVal)) :=
  match db.plans.find? (fun p => p.pid == t.planId) with
  | none => none
  | some plan =>
      match db.users.find? (fun u => u.uid == plan.userId) with
      | none => none
      | some creator =>
          let link : JVal := match cfg.botName with
            | some s => if s ≠ "" then .s ("https://t.me/" ++ s ++ "?start=" ++ t.token)
                else .nullv
            | none => .nullv
          let msgBotName := match cfg.botName with
            | some s => s
            | none => "None"
          let msgLink := "https://t.me/" ++ msgBotName ++ "?start=" ++ t.token
          let msg := creatorNameOf creator ++ " приглашает вас на план «" ++
            plan.name ++ "» на " ++ strftimeDMYHM plan.datetimeUs ++
            ". Присоединяйтесь: " ++ msgLink
          some [("id", .s t.tokId), ("token", .s t.token), ("link", link),
                ("msg", .s msg)]

inductive TokenDetailResp where
  | ok (fields : List (String × JVal))
  | notFound
  | integrityError
deriving DecidableEq, Repr

/-- `PlanTokenDetailAPIView.get`: a pure lookup followed by
serialization; the store it returns is the store it was given. -/
def planTokenDetailGet (cfg : Config) (db : DB) (token : String) :
    TokenDetailResp × DB :=
  match db.tokens.find? (fun t => t.token == token) with
  | none => (.notFound, db)
  | some t =>
      match serializeGenerateTokenPlan cfg db t with
      | none => (.integrityError, db)
      | some fields => (.ok fields, db)

/-! ## Plan updates (`plans/views.py::PlanUpdateAPIView.put`) and repeated creation -/

/-- Optional-field payload of `PlanUpdateSerializer`. -/
structure PlanUpdateData where
  emoji : Option String
  name : Option String
  location : Option String
  datetimeUs : Option Int
deriving DecidableEq, Repr

/-- `for attr, value in serializer.validated_data.items(): setattr(plan, attr, value)`. -/
def applyPlanUpdate (pl : PlanRow) (u : PlanUpdateData) : PlanRow :=
  { pl with
    emoji := u.emoji.getD pl.emoji,
    name := u.name.getD pl.name,
    location := u.location.getD pl.location,
    datetimeUs := u.datetimeUs.getD pl.datetimeUs }

/-- `Plan.save` on a row that already has a primary key: the
`user_plan_number` branch is skipped and the row is written back. -/
def planSaveExisting (db : DB) (pl : PlanRow) : DB :=
  { db with plans := db.plans.map (fun q => if q.pid == pl.pid then pl else q) }

inductive UpdateResp where
  | ok (pl : PlanRow)
  | notFound
  | forbidden
deriving DecidableEq, Repr

/-- `plans/views.py::PlanUpdateAPIView.put`. -/
def planUpdatePut (db : DB) (callerId planId : Nat) (u : PlanUpdateData) :
    UpdateResp × DB :=
  match db.plans.find? (fun p => p.pid == planId) with
  | none => (.notFound, db)
  | some pl =>
      if pl.userId ≠ callerId then (.forbidden, db)
      else
        let pl' := applyPlanUpdate pl u
        (.ok pl', planSaveExisting db pl')

/-- Repeated plan creation by one user (the argument payload is
irrelevant to numbering). -/
def iterateCreate (uid : Nat) (db : DB) : Nat → DB
  | 0 => db
  | n + 1 => (planCreatePost (iterateCreate uid db n) uid "" "" "" 0 0).2

def c4User : UserRow :=
  { uid := 1, tg_id := some 11, telegram_id := none, username := "a",
    first_name := "", last_name := "", telegram_username := "",
    phone := none, avatar := none }

/-- A store with a single user and no plans. -/
def c4Db : DB :=
  { users := [c4User], plans := [], planUsers := [], tokens := [],
    rooms := [], roomGroups := [],
    nextUserId := 2, nextPlanId := 1, nextPlanUserId := 1,
    nextRoomId := 1, nextGroupId := 1 }

/-- A concrete invite token with max-uses 2 and an expiry in the future. -/
def c2SampleToken : TokenRow :=
  { tokId := "11111111-2222-3333-4444-555555555555",
    token := "abc123", planId := 1, createdBy := 1,
    expires_at := some 1000, max_uses := 2, current_uses := 0, is_active := true }

/-- Concrete instantiations for the authentication witness: an abstract
HMAC whose hex digest is the constant nonempty string matching the
payload's `hash` field. -/
def c1Hmac : HmacPrim :=
  { digest := fun k m => k ++ "|" ++ m, hexdigest := fun _ _ => "h0" }

def c1Fields : List (String × String) :=
  [("auth_date", "100"), ("hash", "h0"), ("user", "{}")]

def c1User : UserData :=
  { id := some 5, username := none, first_name := none, last_name := none,
    photo_url := none, phone_number := none }

def c1Lib : ParseLib :=
  { parseQs := fun _ => c1Fields.map (fun p => (p.1, [p.2])),
    jsonLoads := fun _ => some c1User }

def c1Cfg : Config := { telegramBotToken := "B", botName := none }

/-! ## C3 — membership status transitions (corrected) -/

def c3UserA : UserRow :=
  { uid := 1, tg_id := some 11, telegram_id := none, username := "a",
    first_name := "", last_name := "", telegram_username := "",
    phone := none, avatar := none }

def c3UserB : UserRow :=
  { uid := 2, tg_id := some 22, telegram_id := none, username := "b",
    first_name := "", last_name := "", telegram_username := "",
    phone := none, avatar := none }

def c3Plan : PlanRow :=
  { pid := 1, emoji := "e", name := "P", location := "L", datetimeUs := 0,
    userId := 1, user_plan_number := 1, createdAtUs := 0 }

/-- A store where user 2 has already declined plan 1. -/
def c3Db : DB :=
  { users := [c3UserA, c3UserB], plans := [c3Plan],
    planUsers :=
      [{ puid := 1, planId := 1, userId := 1, status := PUStatus.approved },
       { puid := 2, planId := 1, userId := 2, status := PUStatus.rejected }],
    tokens := [], rooms := [], roomGroups := [],
    nextUserId := 3, nextPlanId := 2, nextPlanUserId := 3,
    nextRoomId := 1, nextGroupId := 1 }

/-- Plan dated 2025-12-27 19:00. -/
def c5PlanA : PlanRow :=
  { pid := 1, emoji := "a", name := "A", location := "L",
    datetimeUs := dayStartUs (2025, 12, 27) + 68400000000,
    userId := 1, user_plan_number := 1, createdAtUs := 0 }

/-- Plan dated 2025-12-28 19:00. -/
def c5PlanB : PlanRow :=
  { pid := 2, emoji := "b", name := "B", location := "L",
    datetimeUs := dayStartUs (2025, 12, 28) + 68400000000,
    userId := 1, user_plan_number := 2, createdAtUs := 0 }

def c5DateParams : ListParams :=
  { filter_type := some "date", date := some "2025-12-27",
    start_date := none, end_date := none }

def c5StartParams : ListParams :=
  { filter_type := none, date := none,
    start_date := some "2025-12-28", end_date := none }

/-! ## C6 — roster-entry creation sources (corrected) -/

def c6UserA : UserRow :=
  { uid := 1, tg_id := some 11, telegram_id := none, username := "a",
    first_name := "", last_name := "", telegram_username := "",
    phone := none, avatar := none }

def c6UserB : UserRow :=
  { uid := 2, tg_id := some 22, telegram_id := none, username := "b",
    first_name := "", last_name := "", telegram_username := "",
    phone := none, avatar := none }

def c6Plan : PlanRow :=
  { pid := 1, emoji := "e", name := "P", location := "L", datetimeUs := 0,
    userId := 1, user_plan_number := 1, createdAtUs := 0 }

/-- A store where user 2 holds a pending invite on plan 1, whose chat room
is room 1, and user 2 has no roster entry. -/
def c6Db : DB :=
  { users := [c6UserA, c6UserB], plans := [c6Plan],
    planUsers :=
      [{ puid := 1, planId := 1, userId := 1, status := PUStatus.approved },
       { puid := 2, planId := 1, userId := 2, status := PUStatus.pending }],
    tokens := [],
    rooms := [{ rid := 1, planId := 1, userId := 1 }],
    roomGroups := [{ gid := 1, userId := 1, roomId := 1 }],
    nextUserId := 3, nextPlanId := 2, nextPlanUserId := 3,
    nextRoomId := 2, nextGroupId := 2 }

def c7UserA : UserRow :=
  { uid := 1, tg_id := some 11, telegram_id := none, username := "a",
    first_name := "", last_name := "", telegram_username := "",
    phone := none, avatar := none }

def c7UserB : UserRow :=
  { uid := 2, tg_id := some 22, telegram_id := none, username := "b",
    first_name := "", last_name := "", telegram_username := "",
    phone := none, avatar := none }

def c7Plan : PlanRow :=
  { pid := 1, emoji := "e", name := "P", location := "L", datetimeUs := 0,
    userId := 1, user_plan_number := 1, createdAtUs := 0 }

def c7Room : RoomRow := { rid := 1, planId := 1, userId := 1 }

def c7Grp : GroupRow := { gid := 2, userId := 2, roomId := 1 }

/-- A store where user 1 owns plan 1 / room 1 and user 2 is on the roster. -/
def c7Db : DB :=
  { users := [c7UserA, c7UserB], plans := [c7Plan],
    planUsers :=
      [{ puid := 1, planId := 1, userId := 1, status := PUStatus.approved },
       { puid := 2, planId := 1, userId := 2, status := PUStatus.approved }],
    tokens := [], rooms := [c7Room],
    roomGroups := [{ gid := 1, userId := 1, roomId := 1 }, c7Grp],
    nextUserId := 3, nextPlanId := 2, nextPlanUserId := 3,
    nextRoomId := 2, nextGroupId := 3 }

def c8Token : TokenRow :=
  { tokId := "t1", token := "tok1", planId := 1, createdBy := 1,
    expires_at := none, max_uses := 1, current_uses := 0, is_active := false }

def c8Fields : List (String × String) :=
  [("auth_date", "100"), ("hash", "h0"), ("user", "{}")]

def c8Hmac : HmacPrim :=
  { digest := fun k m => k ++ "|" ++ m, hexdigest := fun _ _ => "h0" }

def c8Ud : UserData :=
  { id := some 7, username := none, first_name := none, last_name := none,
    photo_url := none, phone_number := none }

def c8Lib : ParseLib :=
  { parseQs := fun _ => c8Fields.map (fun p => (p.1, [p.2])),
    jsonLoads := fun _ => some c8Ud }

def c8Cfg : Config := { telegramBotToken := "B", botName := none }

/-- A store holding only a deactivated invite token. -/
def c8Db : DB :=
  { users := [], plans := [], planUsers := [], tokens := [c8Token],
    rooms := [], roomGroups := [],
    nextUserId := 1, nextPlanId := 1, nextPlanUserId := 1,
    nextRoomId := 1, nextGroupId := 1 }

/-! ## C9 — public token lookup (corrected) -/

def c9User : UserRow :=
  { uid := 1, tg_id := some 11, telegram_id := none, username := "a",
    first_name := "Ann", last_name := "", telegram_username := "",
    phone := none, avatar := none }

def c9Plan : PlanRow :=
  { pid := 1, emoji := "e", name := "P", location := "L",
    datetimeUs := 1766862000000000, userId := 1, user_plan_number := 1,
    createdAtUs := 0 }

/-- An invite token whose expiry (second 1000) is in the past at second
2000 while its active flag is still true. -/
def c9Token : TokenRow :=
  { tokId := "t9", token := "tok9", planId := 1, createdBy := 1,
    expires_at := some 1000, max_uses := 10, current_uses := 0,
    is_active := true }

def c9Cfg : Config := { telegramBotToken := "B", botName := some "bot" }

def c9Db : DB :=
  { users := [c9User], plans := [c9Plan], planUsers := [],
    tokens := [c9Token], rooms := [], roomGroups := [],
    nextUserId := 2, nextPlanId := 2, nextPlanUserId := 1,
    nextRoomId := 1, nextGroupId := 1 }

/-! ## C10 — bulk invite is not atomic on missing bot credential -/

/-- Primary-key integrity of the membership table: ids are below the
autoincrement counter and pairwise distinct (what a relational store
guarantees). -/
def PkInv (db : DB) : Prop :=
  (∀ r ∈ db.planUsers, r.puid < db.nextPlanUserId) ∧
  db.planUsers.Pairwise (fun a b => a.puid ≠ b.puid)

def c10Caller : UserRow :=
  { uid := 1, tg_id := some 11, telegram_id := none, username := "a",
    first_name := "Ann", last_name := "", telegram_username := "",
    phone := none, avatar := none }

def c10Target : UserRow :=
  { uid := 2, tg_id := some 22, telegram_id := none, username := "b",
    first_name := "Bob", last_name := "", telegram_username := "",
    phone := none, avatar := none }

def c10Plan : PlanRow :=
  { pid := 1, emoji := "e", name := "P", location := "L", datetimeUs := 0,
    userId := 1, user_plan_number := 1, createdAtUs := 0 }

def c10Cfg : Config := { telegramBotToken := "", botName := none }

def c10Db : DB :=
  { users := [c10Caller, c10Target], plans := [c10Plan],
    planUsers := [{ puid := 1, planId := 1, userId := 1, status := PUStatus.approved }],
    tokens := [], rooms := [], roomGroups := [],
    nextUserId := 3, nextPlanId := 2, nextPlanUserId := 2,
    nextRoomId := 1, nextGroupId := 1 }

/-! # Theorems -/

/-! ## Helper lemmas on token saves -/

theorem saveRow_fields (t : TokenRow) (n : Int) :
    (t.saveRow n).current_uses = t.current_uses ∧
    (t.saveRow n).expires_at = t.expires_at ∧
    (t.saveRow n).max_uses = t.max_uses := by
  unfold TokenRow.saveRow
  by_cases h1 : t.token = "" <;> simp only [h1, if_true, if_false, ite_true, ite_false] <;>
    split <;> simp <;> split <;> simp

theorem saveRow_is_active (t : TokenRow) (n : Int) :
    (t.saveRow n).is_active =
      (t.is_active && !(expiryPassed t.expires_at n) &&
        !(decide (t.current_uses ≥ t.max_uses))) := by
  unfold TokenRow.saveRow
  by_cases h1 : t.token = "" <;> by_cases h2 : t.is_active <;>
    by_cases h3 : expiryPassed t.expires_at n <;>
    by_cases h4 : t.current_uses ≥ t.max_uses <;>
    simp [h1, h2, h3, h4]

/-- C2: an invite token is usable iff it is active AND (it has no expiry OR
now ≤ expiry) AND current uses < max uses; each successful redemption
increments the use counter and deactivates the token when the counter
reaches the maximum: for every token with max-uses 2 and a fresh counter,
two redemptions succeed (the counter reaches 2 and the active flag flips
to false on the second) and a third redemption is rejected as invalid,
leaving the row untouched. -/
theorem c2_invite_token_validity_and_redemption
    (t : TokenRow) (n1 n2 n3 : Int)
    (hmax : t.max_uses = 2) (hcur : t.current_uses = 0) (hact : t.is_active = true)
    (hexp : ∀ e, t.expires_at = some e → n1 ≤ e ∧ n2 ≤ e) :
    (∀ (u : TokenRow) (m : Int), u.is_valid m =
      (u.is_active &&
        (match u.expires_at with
         | none => true
         | some e => decide (m ≤ e)) &&
        decide (u.current_uses < u.max_uses))) ∧
    (t.use_token n1).1 = true ∧
    ((t.use_token n1).2).current_uses = 1 ∧
    ((t.use_token n1).2).is_active = true ∧
    (((t.use_token n1).2).use_token n2).1 = true ∧
    ((((t.use_token n1).2).use_token n2).2).current_uses = 2 ∧
    ((((t.use_token n1).2).use_token n2).2).is_active = false ∧
    (((((t.use_token n1).2).use_token n2).2).use_token n3).1 = false ∧
    (((((t.use_token n1).2).use_token n2).2).use_token n3).2 =
      (((t.use_token n1).2).use_token n2).2 := by
  constructor
  · intro u m
    unfold TokenRow.is_valid expiryPassed
    rw [Bool.eq_iff_iff]
    cases hE : u.expires_at <;>
      split_ifs with h1 h2 h3 <;>
      simp_all
  · obtain ⟨tid, tok, pid, cb, exp, mx, cu, ia⟩ := t
    simp only at hmax hcur hact
    subst hmax; subst hcur; subst hact
    by_cases htok : tok = "" <;>
    cases exp with
    | none =>
        simp [TokenRow.use_token, TokenRow.can_be_used, TokenRow.is_valid,
          TokenRow.saveRow, expiryPassed, htok]
    | some e =>
        obtain ⟨h1, h2⟩ := hexp e rfl
        simp [TokenRow.use_token, TokenRow.can_be_used, TokenRow.is_valid,
          TokenRow.saveRow, expiryPassed, htok,
          show ¬(n1 > e) from by omega, show ¬(n2 > e) from by omega]

theorem c2_invite_token_validity_and_redemption_witness :
    (∀ (u : TokenRow) (m : Int), u.is_valid m =
      (u.is_active &&
        (match u.expires_at with
         | none => true
         | some e => decide (m ≤ e)) &&
        decide (u.current_uses < u.max_uses))) ∧
    (c2SampleToken.use_token 10).1 = true ∧
    ((c2SampleToken.use_token 10).2).current_uses = 1 ∧
    ((c2SampleToken.use_token 10).2).is_active = true ∧
    (((c2SampleToken.use_token 10).2).use_token 20).1 = true ∧
    ((((c2SampleToken.use_token 10).2).use_token 20).2).current_uses = 2 ∧
    ((((c2SampleToken.use_token 10).2).use_token 20).2).is_active = false ∧
    (((((c2SampleToken.use_token 10).2).use_token 20).2).use_token 30).1 = false ∧
    (((((c2SampleToken.use_token 10).2).use_token 20).2).use_token 30).2 =
      (((c2SampleToken.use_token 10).2).use_token 20).2 :=
  c2_invite_token_validity_and_redemption c2SampleToken 10 20 30
    (by decide) (by decide) (by decide)
    (fun e he => by
      simp only [c2SampleToken, Option.some.injEq] at he
      subst he
      exact ⟨by decide, by decide⟩)

/-! ## C1 — Telegram session acceptance -/
theorem dataCheckPairs_strData (fields : List (String × String)) :
    dataCheckPairs (strData fields) = .ok (fields.filter (fun p => p.1 ≠ "hash")) := by
  induction fields with
  | nil => rfl
  | cons p rest ih =>
      by_cases h : p.1 = "hash"
      · simpa [strData, dataCheckPairs, h] using ih
      · simp only [strData, List.map_cons] at ih ⊢
        simp only [dataCheckPairs, show (p.1 == "hash") = false from by simp [h]]
        rw [ih]
        simp [h]
        rfl

theorem lookupVal_strData (fields : List (String × String)) (k : String) :
    lookupVal (strData fields) k = (lookupStr fields k).map Val.s := by
  induction fields with
  | nil => rfl
  | cons p rest ih =>
      simp only [lookupVal, lookupStr, strData, List.map_cons, List.find?] at ih ⊢
      by_cases h : p.1 = k
      · simp [h]
      · simp only [show (p.1 == k) = false from by simp [h]]
        exact ih

theorem collapseParsed_singletons (fields : List (String × String)) :
    collapseParsed (fields.map (fun p => (p.1, [p.2]))) = strData fields := by
  induction fields with
  | nil => rfl
  | cons p rest ih =>
      simp only [collapseParsed, strData, List.map_cons, List.map_map] at ih ⊢
      simp_all

/-- C1: for a plain-string Telegram payload, `check_auth` accepts iff the
hexadecimal HMAC-SHA256 (secret key = HMAC-SHA256 over the bot token with
key "WebAppData") over the spec's data-check string — every field except
`hash`, rendered key=value, sorted ascending by key, newline-joined — is
(constant-time-)equal to the received `hash` AND now − auth_date ≤ 86400;
in particular a payload exactly 86 400 seconds old with a matching hash is
accepted, and at 86 401 seconds the authentication endpoint rejects the
request as Forbidden. -/
theorem c1_telegram_auth_acceptance (H : HmacPrim) (fields : List (String × String)) (bot : String) (ad : Int)
    (L : ParseLib) (cfg : Config) (ids ujson : String) (ud : UserData)
    (hne : ∀ k m, H.hexdigest k m ≠ "")
    (had : pyIntOfVal (lookupVal (strData fields) "auth_date") = .ok ad)
    (hids : ids ≠ "")
    (hqs : L.parseQs ids = fields.map (fun p => (p.1, [p.2])))
    (hcfg : cfg.telegramBotToken = bot)
    (hu : lookupStr fields "user" = some ujson)
    (hujson : ujson ≠ "")
    (hjp : L.jsonLoads ujson = some ud) :
    (∀ now, check_auth H (strData fields) bot now =
      .ok (compareDigest (specExpectedHash H bot fields)
            ((lookupStr fields "hash").getD "") &&
          decide (now - ad ≤ 86400))) ∧
    (compareDigest (specExpectedHash H bot fields)
        ((lookupStr fields "hash").getD "") = true →
      check_auth H (strData fields) bot (ad + 86400) = .ok true) ∧
    (∀ db tokenRaw,
      (telegramAuthPost H L cfg (ad + 86401) db ids tokenRaw).1 =
        .forbidden "Неправильная аутентификация Telegram") := by
  have hXne : (specExpectedHash H bot fields == "") = false := by
    have := hne (H.digest "WebAppData" bot) (specDataCheckString fields)
    simpa [specExpectedHash] using this
  have key : ∀ now, check_auth H (strData fields) bot now =
      .ok (compareDigest (specExpectedHash H bot fields)
            ((lookupStr fields "hash").getD "") &&
          decide (now - ad ≤ 86400)) := by
    intro now
    unfold check_auth
    rw [lookupVal_strData]
    cases hh : lookupStr fields "hash" with
    | none => simp [Val.truthy, compareDigest, hXne]
    | some h =>
        by_cases hhe : h = ""
        · subst hhe
          simp [Val.truthy, compareDigest, hXne]
        · simp only [Option.map_some, Option.getD_some, Val.truthy]
          rw [if_neg (by simpa using hhe)]
          rw [dataCheckPairs_strData]
          simp only [bind, Except.bind, Option.map_some, Option.getD_some]
          simp only [had]
          by_cases hcmp : compareDigest
              (H.hexdigest (H.digest "WebAppData" bot)
                (joinAuthStr (sortPairs (fields.filter (fun p => p.1 ≠ "hash"))))) h = true
          · have hc2 : compareDigest (specExpectedHash H bot fields) h = true := hcmp
            have hcmpN := hcmp
            simp only [ne_eq, decide_not] at hcmpN
            by_cases ht : now - ad > 86400
            · simp [hcmpN, hc2, ht, show ¬(now - ad ≤ 86400) from by omega]
            · simp [hcmpN, hc2, ht, show now - ad ≤ 86400 from by omega]
          · have hc0 : compareDigest
                (H.hexdigest (H.digest "WebAppData" bot)
                  (joinAuthStr (sortPairs (fields.filter (fun p => p.1 ≠ "hash"))))) h = false := by
              simpa using hcmp
            have hc2 : compareDigest (specExpectedHash H bot fields) h = false := hc0
            have hc0N := hc0
            simp only [ne_eq, decide_not] at hc0N
            simp [hc0N, hc2]
  refine ⟨key, ?_, ?_⟩
  · intro hc
    rw [key (ad + 86400), hc]
    simp
  · intro db tokenRaw
    have hfar : ¬(ad + 86401 - ad ≤ 86400) := by omega
    unfold telegramAuthPost
    rw [if_neg hids]
    simp only [hqs, collapseParsed_singletons, lookupVal_strData, hu, Option.map_some']
    rw [if_neg (by simp [Val.truthy, hujson])]
    simp only [hjp, hcfg, key (ad + 86401)]
    simp [hfar]

theorem c1_telegram_auth_acceptance_witness :
    (∀ now, check_auth c1Hmac (strData c1Fields) "B" now =
      .ok (compareDigest (specExpectedHash c1Hmac "B" c1Fields)
            ((lookupStr c1Fields "hash").getD "") &&
          decide (now - 100 ≤ 86400))) ∧
    (compareDigest (specExpectedHash c1Hmac "B" c1Fields)
        ((lookupStr c1Fields "hash").getD "") = true →
      check_auth c1Hmac (strData c1Fields) "B" (100 + 86400) = .ok true) ∧
    (∀ db tokenRaw,
      (telegramAuthPost c1Hmac c1Lib c1Cfg (100 + 86401) db "x" tokenRaw).1 =
        .forbidden "Неправильная аутентификация Telegram") :=
  c1_telegram_auth_acceptance c1Hmac c1Fields "B" 100 c1Lib c1Cfg "x" "{}" c1User
    (by intro k m; simp [c1Hmac]) rfl (by decide) rfl rfl (by decide) (by decide) rfl

theorem getOrCreateGroup_planUsers (db : DB) (u r : Nat) :
    ((getOrCreateGroup db u r).2).planUsers = db.planUsers := by
  unfold getOrCreateGroup
  split <;> rfl

theorem updateOrCreatePlanUser_mem (db : DB) (p u : Nat) (s : PUStatus) :
    ∀ r' ∈ ((updateOrCreatePlanUser db p u s).2).planUsers,
      r' ∈ db.planUsers ∨ (r'.planId = p ∧ r'.userId = u ∧ r'.status = s) := by
  intro r' hmem
  unfold updateOrCreatePlanUser at hmem
  cases hf : db.planUsers.find? (fun r => r.planId == p && r.userId == u) with
  | none =>
      rw [hf] at hmem
      simp only [DB.writePlanUser] at hmem
      rcases List.mem_append.mp hmem with h | h
      · exact Or.inl h
      · simp at h
        subst h
        exact Or.inr ⟨rfl, rfl, rfl⟩
  | some r0 =>
      rw [hf] at hmem
      simp only [DB.writePlanUser] at hmem
      rcases List.mem_map.mp hmem with ⟨r1, hr1, heq⟩
      by_cases hp : r1.puid == r0.puid
      · have hpred := List.find?_some hf
        simp only [Bool.and_eq_true, beq_iff_eq] at hpred
        rw [if_pos hp] at heq
        subst heq
        exact Or.inr ⟨hpred.1, hpred.2, rfl⟩
      · rw [if_neg hp] at heq
        subst heq
        exact Or.inl hr1

/-- C3 counterexample: the claim says no operation moves a rejected
membership to approved, but `PlanApproveAPIView.put` upserts the caller's
membership to approved unconditionally: in the concrete store `c3Db`,
user 2's membership on plan 1 is rejected, and after the approve call it
is approved. -/
theorem c3_membership_transition_example :
    ((c3Db.planUsers.find? (fun r => r.planId == 1 && r.userId == 2)).map
        (fun r => r.status) = some PUStatus.rejected) ∧
    ((((planApprovePut c3Db 2 1).2).planUsers.find?
        (fun r => r.planId == 1 && r.userId == 2)).map
        (fun r => r.status) = some PUStatus.approved) := by
  decide

end EventPlanner
namespace EventPlanner

theorem getOrCreatePlanUser_mem (db : DB) (p u : Nat) (s : PUStatus) :
    ∀ r' ∈ ((getOrCreatePlanUser db p u s).2.2).planUsers,
      r' ∈ db.planUsers ∨ (r'.planId = p ∧ r'.userId = u ∧ r'.status = s) := by
  intro r' hmem
  unfold getOrCreatePlanUser at hmem
  cases hf : db.planUsers.find? (fun r => r.planId == p && r.userId == u) with
  | none =>
      rw [hf] at hmem
      simp only at hmem
      rcases List.mem_append.mp hmem with h | h
      · exact Or.inl h
      · simp at h
        subst h
        exact Or.inr ⟨rfl, rfl, rfl⟩
  | some r0 =>
      rw [hf] at hmem
      exact Or.inl hmem

theorem getOrCreateForce_mem (db : DB) (p u : Nat) (r' : PlanUserRow)
    (hmem : r' ∈ (if (getOrCreatePlanUser db p u PUStatus.removedIntoChatGroup).2.1 = true
        then (getOrCreatePlanUser db p u PUStatus.removedIntoChatGroup).2.2
        else ((getOrCreatePlanUser db p u PUStatus.removedIntoChatGroup).2.2).writePlanUser
          { (getOrCreatePlanUser db p u PUStatus.removedIntoChatGroup).1 with
              status := PUStatus.removedIntoChatGroup }).planUsers) :
    r' ∈ db.planUsers ∨
      (r'.userId = u ∧ r'.status = PUStatus.removedIntoChatGroup) := by
  cases hf : db.planUsers.find? (fun r => r.planId == p && r.userId == u) with
  | none =>
      simp only [getOrCreatePlanUser, hf, if_pos] at hmem
      rcases List.mem_append.mp hmem with h | h
      · exact Or.inl h
      · simp at h
        subst h
        exact Or.inr ⟨rfl, rfl⟩
  | some r0 =>
      simp only [getOrCreatePlanUser, hf, DB.writePlanUser] at hmem
      rcases List.mem_map.mp hmem with ⟨r1, hr1, heq⟩
      by_cases hpq : r1.puid == r0.puid
      · have hpred := List.find?_some hf
        simp only [Bool.and_eq_true, beq_iff_eq] at hpred
        rw [if_pos hpq] at heq
        subst heq
        exact Or.inr ⟨hpred.2, rfl⟩
      · rw [if_neg hpq] at heq
        subst heq
        exact Or.inl hr1

/-- C3 amended: membership status transitions are per-operation forced
writes — accept sets the caller's membership on the plan to approved from
ANY prior status (not only pending), decline sets it to rejected from any
prior status, and eviction sets the target's membership to
removed_into_chat_group from any prior status; no other membership row is
touched by these operations (each row after the call is either an
unchanged old row or the forced row). -/
theorem c3_amended_membership_transitions :
    (∀ (db : DB) (callerId planId : Nat),
      ∀ r' ∈ ((planApprovePut db callerId planId).2).planUsers,
        r' ∈ db.planUsers ∨
          (r'.planId = planId ∧ r'.userId = callerId ∧
            r'.status = PUStatus.approved)) ∧
    (∀ (db : DB) (callerId planId : Nat),
      ∀ r' ∈ ((planRejectPut db callerId planId).2).planUsers,
        r' ∈ db.planUsers ∨
          (r'.planId = planId ∧ r'.userId = callerId ∧
            r'.status = PUStatus.rejected)) ∧
    (∀ (db : DB) (callerId roomId targetId : Nat),
      ∀ r' ∈ ((removeUserFromRoomDelete db callerId roomId targetId).2).planUsers,
        r' ∈ db.planUsers ∨
          (r'.userId = targetId ∧ r'.status = PUStatus.removedIntoChatGroup)) := by
  refine ⟨?_, ?_, ?_⟩
  · intro db callerId planId r' hmem
    unfold planApprovePut at hmem
    cases hpl : db.plans.find? (fun p => p.pid == planId) with
    | none =>
        rw [hpl] at hmem
        exact Or.inl hmem
    | some pl =>
        rw [hpl] at hmem
        simp only at hmem
        cases hroom : ((updateOrCreatePlanUser db planId callerId PUStatus.approved).2).rooms.find?
            (fun r => r.planId == planId) with
        | none =>
            rw [hroom] at hmem
            exact updateOrCreatePlanUser_mem db planId callerId PUStatus.approved r' hmem
        | some room =>
            rw [hroom] at hmem
            rw [getOrCreateGroup_planUsers] at hmem
            exact updateOrCreatePlanUser_mem db planId callerId PUStatus.approved r' hmem
  · intro db callerId planId r' hmem
    unfold planRejectPut at hmem
    cases hpl : db.plans.find? (fun p => p.pid == planId) with
    | none =>
        rw [hpl] at hmem
        exact Or.inl hmem
    | some pl =>
        rw [hpl] at hmem
        simp only at hmem
        cases hroom : ((updateOrCreatePlanUser db planId callerId PUStatus.rejected).2).rooms.find?
            (fun r => r.planId == planId) with
        | none =>
            rw [hroom] at hmem
            exact updateOrCreatePlanUser_mem db planId callerId PUStatus.rejected r' hmem
        | some room =>
            rw [hroom] at hmem
            rw [getOrCreateGroup_planUsers] at hmem
            exact updateOrCreatePlanUser_mem db planId callerId PUStatus.rejected r' hmem
  · intro db callerId roomId targetId r' hmem
    unfold removeUserFromRoomDelete at hmem
    split at hmem
    · exact Or.inl hmem
    · split at hmem
      · exact Or.inl hmem
      · split at hmem
        · exact Or.inl hmem
        · split at hmem
          · exact Or.inl hmem
          · split at hmem
            · exact Or.inl hmem
            · split at hmem
              · exact Or.inl hmem
              · exact getOrCreateForce_mem db _ targetId r' hmem

/-! ## C4 — plan sequence numbers (corrected) -/

/-- C4 counterexample: `user_plan_number` is recomputed from the current
count of the creator's plans, so after creating two plans (numbers 1 and 2)
and deleting the first, a third plan is assigned number 2 again — the same
number as the still-existing second plan, contradicting "a number once
assigned is never assigned to a later plan of the same creator". -/
theorem c4_plan_number_reuse_example :
    ((planCreatePost c4Db 1 "e" "A" "L" 0 0).1.user_plan_number = 1) ∧
    ((planCreatePost (planCreatePost c4Db 1 "e" "A" "L" 0 0).2
        1 "e" "B" "L" 0 0).1.user_plan_number = 2) ∧
    ((planDeleteView (planCreatePost (planCreatePost c4Db 1 "e" "A" "L" 0 0).2
        1 "e" "B" "L" 0 0).2 1
        (planCreatePost c4Db 1 "e" "A" "L" 0 0).1.pid).1 = .ok) ∧
    ((planCreatePost
        (planDeleteView (planCreatePost (planCreatePost c4Db 1 "e" "A" "L" 0 0).2
          1 "e" "B" "L" 0 0).2 1
          (planCreatePost c4Db 1 "e" "A" "L" 0 0).1.pid).2
        1 "e" "C" "L" 0 0).1.user_plan_number = 2) ∧
    ((planCreatePost
        (planDeleteView (planCreatePost (planCreatePost c4Db 1 "e" "A" "L" 0 0).2
          1 "e" "B" "L" 0 0).2 1
          (planCreatePost c4Db 1 "e" "A" "L" 0 0).1.pid).2
        1 "e" "C" "L" 0 0).1.pid ≠
      (planCreatePost (planCreatePost c4Db 1 "e" "A" "L" 0 0).2
        1 "e" "B" "L" 0 0).1.pid) := by
  decide

end EventPlanner
namespace EventPlanner

theorem getOrCreatePlanUser_plans (db : DB) (p u : Nat) (s : PUStatus) :
    ((getOrCreatePlanUser db p u s).2.2).plans = db.plans := by
  unfold getOrCreatePlanUser
  split <;> rfl

theorem writePlanUser_plans (db : DB) (r : PlanUserRow) :
    (db.writePlanUser r).plans = db.plans := rfl

theorem ensureCreatorApproved_plans (db : DB) (pl : PlanRow) :
    (ensureCreatorApproved db pl).plans = db.plans := by
  unfold ensureCreatorApproved
  split
  rename_i pu created db1 heq
  have h1 : db1.plans = db.plans := by
    have h2 := congrArg (fun x => x.2.2.plans) heq
    simp only at h2
    rw [getOrCreatePlanUser_plans] at h2
    exact h2.symm
  by_cases hc : created = true <;> simp [hc, writePlanUser_plans, h1]

theorem planCreatePost_plans (db : DB) (uid : Nat) (e n l : String) (dt cr : Int) :
    ((planCreatePost db uid e n l dt cr).2).plans =
      db.plans ++ [(planCreatePost db uid e n l dt cr).1] := by
  unfold planCreatePost planSaveNew
  simp only
  split
  · rw [writePlanUser_plans, getOrCreatePlanUser_plans, ensureCreatorApproved_plans]
  · rw [getOrCreatePlanUser_plans, ensureCreatorApproved_plans]

theorem planCreatePost_userId (db : DB) (uid : Nat) (e n l : String) (dt cr : Int) :
    (planCreatePost db uid e n l dt cr).1.userId = uid := rfl

theorem iterateCreate_count (uid : Nat) (db : DB) (n : Nat) :
    (((iterateCreate uid db n).plans.filter (fun p => p.userId == uid)).length) =
      ((db.plans.filter (fun p => p.userId == uid)).length) + n := by
  induction n with
  | zero => rfl
  | succ k ih =>
      show (((planCreatePost (iterateCreate uid db k) uid "" "" "" 0 0).2).plans.filter
          (fun p => p.userId == uid)).length = _
      rw [planCreatePost_plans]
      rw [List.filter_append]
      simp [planCreatePost_userId, ih]
      omega

/-- C4 amended: a plan's `user_plan_number` is fixed at creation time to
the count of the creator's currently existing plans + 1; updating a plan
never recomputes any stored number; and for a user starting with no plans
who creates plans in sequence with no deletion, the k-th created plan has
number k.  After a deletion the count drops, so a previously assigned
number can be reassigned to a later plan. -/
theorem c4_amended_plan_numbering :
    (∀ (db : DB) (uid : Nat) (e n l : String) (dt cr : Int),
      (planCreatePost db uid e n l dt cr).1.user_plan_number =
        (db.plans.filter (fun p => p.userId == uid)).length + 1) ∧
    (∀ (db : DB) (callerId planId : Nat) (u : PlanUpdateData),
      ∀ q' ∈ ((planUpdatePut db callerId planId u).2).plans,
        ∃ q ∈ db.plans, q.pid = q'.pid ∧ q'.user_plan_number = q.user_plan_number) ∧
    (∀ (uid : Nat) (db : DB) (n : Nat),
      ((planCreatePost (iterateCreate uid db n) uid "" "" "" 0 0).1).user_plan_number =
        (db.plans.filter (fun p => p.userId == uid)).length + n + 1) := by
  have hnum : ∀ (db : DB) (uid : Nat) (e n l : String) (dt cr : Int),
      (planCreatePost db uid e n l dt cr).1.user_plan_number =
        (db.plans.filter (fun p => p.userId == uid)).length + 1 := by
    intro db uid e n l dt cr
    rfl
  refine ⟨hnum, ?_, ?_⟩
  · intro db callerId planId u q' hmem
    unfold planUpdatePut at hmem
    cases hf : db.plans.find? (fun p => p.pid == planId) with
    | none =>
        rw [hf] at hmem
        exact ⟨q', hmem, rfl, rfl⟩
    | some pl =>
        rw [hf] at hmem
        simp only at hmem
        by_cases hown : pl.userId ≠ callerId
        · rw [if_pos hown] at hmem
          exact ⟨q', hmem, rfl, rfl⟩
        · rw [if_neg hown] at hmem
          simp only [planSaveExisting] at hmem
          rcases List.mem_map.mp hmem with ⟨q, hq, heq⟩
          by_cases hpq : q.pid == (applyPlanUpdate pl u).pid
          · rw [if_pos hpq] at heq
            subst heq
            refine ⟨pl, List.mem_of_find?_eq_some hf, rfl, rfl⟩
          · rw [if_neg hpq] at heq
            subst heq
            exact ⟨q, hq, rfl, rfl⟩
  · intro uid db n
    rw [hnum]
    rw [iterateCreate_count]

/-! ## C5 — ListPlans date-filter precedence -/

/-- C5: ListPlans filter precedence — with filter type "new" both buckets
are restricted to plans created within the last 2 days regardless of any
date parameters; otherwise, when filter type is "date" or absent with a
date/start/end parameter present, a parseable explicit date restricts to
that whole calendar day (00:00:00.000000 through 23:59:59.999999), else a
parseable start date is an inclusive lower bound and/or a parseable end
date an inclusive upper bound with its time forced to 23:59:59;
unparseable date strings leave the buckets unfiltered rather than
erroring; with any other filter type no date filter applies; and the
endpoint applies the same pipeline to both buckets. -/
theorem c5_list_filter_precedence :
    (∀ (p : ListParams) (nowUs : Int) (plans : List PlanRow),
      p.filter_type = some "new" →
      planListFilter p nowUs plans =
        plans.filter (fun pl => decide (pl.createdAtUs ≥ nowUs - 2 * usPerDay))) ∧
    (∀ (p : ListParams) (nowUs : Int) (plans : List PlanRow) (ymd : Int × Nat × Nat),
      p.filter_type ≠ some "new" →
      (p.filter_type == some "date" ||
        (!optTruthy p.filter_type &&
          (optTruthy p.date || optTruthy p.start_date || optTruthy p.end_date))) = true →
      optTruthy p.date = true →
      strptimeDate (p.date.getD "") = some ymd →
      planListFilter p nowUs plans =
        plans.filter (fun pl =>
          decide (dayStartUs ymd ≤ pl.datetimeUs) &&
          decide (pl.datetimeUs ≤ dayStartUs ymd + 86399999999))) ∧
    (∀ (p : ListParams) (nowUs : Int) (plans : List PlanRow),
      p.filter_type ≠ some "new" →
      (p.filter_type == some "date" ||
        (!optTruthy p.filter_type &&
          (optTruthy p.date || optTruthy p.start_date || optTruthy p.end_date))) = true →
      optTruthy p.date = true →
      strptimeDate (p.date.getD "") = none →
      planListFilter p nowUs plans = plans) ∧
    (∀ (p : ListParams) (nowUs : Int) (plans : List PlanRow) (ymd1 ymd2 : Int × Nat × Nat),
      p.filter_type ≠ some "new" →
      (p.filter_type == some "date" ||
        (!optTruthy p.filter_type &&
          (optTruthy p.date || optTruthy p.start_date || optTruthy p.end_date))) = true →
      optTruthy p.date = false →
      optTruthy p.start_date = true →
      strptimeDate (p.start_date.getD "") = some ymd1 →
      optTruthy p.end_date = true →
      strptimeDate (p.end_date.getD "") = some ymd2 →
      planListFilter p nowUs plans =
        (plans.filter (fun pl => decide (dayStartUs ymd1 ≤ pl.datetimeUs))).filter
          (fun pl => decide (pl.datetimeUs ≤ dayStartUs ymd2 + 86399000000))) ∧
    (∀ (p : ListParams) (nowUs : Int) (plans : List PlanRow) (ymd1 : Int × Nat × Nat),
      p.filter_type ≠ some "new" →
      (p.filter_type == some "date" ||
        (!optTruthy p.filter_type &&
          (optTruthy p.date || optTruthy p.start_date || optTruthy p.end_date))) = true →
      optTruthy p.date = false →
      optTruthy p.start_date = true →
      strptimeDate (p.start_date.getD "") = some ymd1 →
      optTruthy p.end_date = false →
      planListFilter p nowUs plans =
        plans.filter (fun pl => decide (dayStartUs ymd1 ≤ pl.datetimeUs))) ∧
    (∀ (p : ListParams) (nowUs : Int) (plans : List PlanRow) (ymd2 : Int × Nat × Nat),
      p.filter_type ≠ some "new" →
      (p.filter_type == some "date" ||
        (!optTruthy p.filter_type &&
          (optTruthy p.date || optTruthy p.start_date || optTruthy p.end_date))) = true →
      optTruthy p.date = false →
      optTruthy p.start_date = false →
      optTruthy p.end_date = true →
      strptimeDate (p.end_date.getD "") = some ymd2 →
      planListFilter p nowUs plans =
        plans.filter (fun pl => decide (pl.datetimeUs ≤ dayStartUs ymd2 + 86399000000))) ∧
    (∀ (p : ListParams) (nowUs : Int) (plans : List PlanRow),
      p.filter_type ≠ some "new" →
      (p.filter_type == some "date" ||
        (!optTruthy p.filter_type &&
          (optTruthy p.date || optTruthy p.start_date || optTruthy p.end_date))) = false →
      planListFilter p nowUs plans = plans) ∧
    (∀ (db : DB) (uid : Nat) (p : ListParams) (nowUs : Int),
      planListGet db uid p nowUs =
        (planListFilter p nowUs (approvedAndYours db uid),
         planListFilter p nowUs (pendingBucket db uid))) := by
  have hne : ∀ (p : ListParams), p.filter_type ≠ some "new" →
      (p.filter_type == some "new") = false := by
    intro p h
    simpa using h
  refine ⟨?_, ?_, ?_, ?_, ?_, ?_, ?_, ?_⟩
  · intro p nowUs plans h
    unfold planListFilter
    rw [if_pos (by simp [h])]
  · intro p nowUs plans ymd h1 h2 h3 h4
    unfold planListFilter
    rw [if_neg (show ¬((p.filter_type == some "new") = true) from by simp [hne p h1]),
        if_pos h2, if_pos h3, h4]
  · intro p nowUs plans h1 h2 h3 h4
    unfold planListFilter
    rw [if_neg (show ¬((p.filter_type == some "new") = true) from by simp [hne p h1]),
        if_pos h2, if_pos h3, h4]
  · intro p nowUs plans ymd1 ymd2 h1 h2 h3 h4 h5 h6 h7
    unfold planListFilter
    rw [if_neg (show ¬((p.filter_type == some "new") = true) from by simp [hne p h1]),
        if_pos h2,
        if_neg (show ¬(optTruthy p.date = true) from by simp [h3]),
        if_pos h6, h7, if_pos h4, h5]
  · intro p nowUs plans ymd1 h1 h2 h3 h4 h5 h6
    unfold planListFilter
    rw [if_neg (show ¬((p.filter_type == some "new") = true) from by simp [hne p h1]),
        if_pos h2,
        if_neg (show ¬(optTruthy p.date = true) from by simp [h3]),
        if_neg (show ¬(optTruthy p.end_date = true) from by simp [h6]),
        if_pos h4, h5]
  · intro p nowUs plans ymd2 h1 h2 h3 h4 h5 h6
    unfold planListFilter
    rw [if_neg (show ¬((p.filter_type == some "new") = true) from by simp [hne p h1]),
        if_pos h2,
        if_neg (show ¬(optTruthy p.date = true) from by simp [h3]),
        if_pos h5, h6,
        if_neg (show ¬(optTruthy p.start_date = true) from by simp [h4])]
  · intro p nowUs plans h1 h2
    unfold planListFilter
    rw [if_neg (show ¬((p.filter_type == some "new") = true) from by simp [hne p h1]),
        if_neg (show ¬((p.filter_type == some "date" ||
          (!optTruthy p.filter_type &&
            (optTruthy p.date || optTruthy p.start_date || optTruthy p.end_date))) = true)
          from by simp [h2])]
  · intro db uid p nowUs
    rfl

theorem c5_list_filter_precedence_witness :
    (planListFilter c5DateParams 0 [c5PlanA, c5PlanB] =
      [c5PlanA, c5PlanB].filter (fun pl =>
        decide (dayStartUs (2025, 12, 27) ≤ pl.datetimeUs) &&
        decide (pl.datetimeUs ≤ dayStartUs (2025, 12, 27) + 86399999999))) ∧
    (planListFilter c5StartParams 0 [c5PlanA, c5PlanB] =
      [c5PlanA, c5PlanB].filter (fun pl =>
        decide (dayStartUs (2025, 12, 28) ≤ pl.datetimeUs))) ∧
    ([c5PlanA, c5PlanB].filter (fun pl =>
        decide (dayStartUs (2025, 12, 27) ≤ pl.datetimeUs) &&
        decide (pl.datetimeUs ≤ dayStartUs (2025, 12, 27) + 86399999999)) = [c5PlanA]) ∧
    ([c5PlanA, c5PlanB].filter (fun pl =>
        decide (dayStartUs (2025, 12, 28) ≤ pl.datetimeUs)) = [c5PlanB]) := by
  refine ⟨?_, ?_, ?_, ?_⟩
  · exact c5_list_filter_precedence.2.1 c5DateParams 0 [c5PlanA, c5PlanB] (2025, 12, 27)
      (by decide) (by decide) (by decide) (by decide)
  · exact c5_list_filter_precedence.2.2.2.2.1 c5StartParams 0 [c5PlanA, c5PlanB] (2025, 12, 28)
      (by decide) (by decide) (by decide) (by decide) (by decide) (by decide)
  · decide
  · decide

/-- C6 counterexample: the claim says declining an invite adds no roster
entry, but `PlanRejectAPIView.put` performs the same roster get-or-create
as the approve view: in `c6Db`, user 2 has no roster entry for room 1, and
after rejecting plan 1 a roster entry (user 2, room 1) exists. -/
theorem c6_reject_adds_roster_example :
    (c6Db.roomGroups.find? (fun g => g.userId == 2 && g.roomId == 1) = none) ∧
    ((((planRejectPut c6Db 2 1).2).roomGroups.find?
        (fun g => g.userId == 2 && g.roomId == 1)).isSome = true) := by
  decide

theorem getOrCreatePlanUser_roomGroups (db : DB) (p u : Nat) (s : PUStatus) :
    ((getOrCreatePlanUser db p u s).2.2).roomGroups = db.roomGroups := by
  unfold getOrCreatePlanUser
  split <;> rfl

theorem writePlanUser_roomGroups (db : DB) (r : PlanUserRow) :
    (db.writePlanUser r).roomGroups = db.roomGroups := rfl

theorem writeToken_roomGroups (db : DB) (t : TokenRow) :
    (db.writeToken t).roomGroups = db.roomGroups := rfl

theorem updateOrCreatePlanUser_roomGroups (db : DB) (p u : Nat) (s : PUStatus) :
    ((updateOrCreatePlanUser db p u s).2).roomGroups = db.roomGroups := by
  unfold updateOrCreatePlanUser
  split <;> rfl

theorem updateOrCreateUser_roomGroups (db : DB) (tid : Int) (ud : UserData) :
    ((updateOrCreateUser db tid ud).2).roomGroups = db.roomGroups := by
  unfold updateOrCreateUser
  split <;> rfl

theorem ensureCreatorApproved_roomGroups (db : DB) (pl : PlanRow) :
    (ensureCreatorApproved db pl).roomGroups = db.roomGroups := by
  unfold ensureCreatorApproved
  split
  rename_i pu created db1 heq
  have h1 : db1.roomGroups = db.roomGroups := by
    have h2 := congrArg (fun x => x.2.2.roomGroups) heq
    simp only at h2
    rw [getOrCreatePlanUser_roomGroups] at h2
    exact h2.symm
  by_cases hc : created = true <;> simp [hc, writePlanUser_roomGroups, h1]

theorem authInviteTokenStep_roomGroups (db : DB) (user : UserRow)
    (tok : String) (now : Int) :
    ((authInviteTokenStep db user tok now).2).roomGroups = db.roomGroups := by
  unfold authInviteTokenStep
  split
  · rfl
  · split
    · rfl
    · split
      · rfl
      · split
        · rfl
        · split
          all_goals
            simp only
            split <;> split <;>
              simp [writeToken_roomGroups, writePlanUser_roomGroups,
                getOrCreatePlanUser_roomGroups]

theorem telegramAuthPost_roomGroups (H : HmacPrim) (L : ParseLib) (cfg : Config)
    (now : Int) (db : DB) (ids tok : String) :
    ((telegramAuthPost H L cfg now db ids tok).2).roomGroups = db.roomGroups := by
  unfold telegramAuthPost
  split
  · rfl
  · simp only
    split
    · rfl
    · split
      · rfl
      · split
        · rfl
        · split
          · rfl
          · split
            · rfl
            · rfl
            · split
              · rfl
              · split
                · rfl
                · split
                  all_goals
                    rename_i heq
                    have h2 := congrArg (fun x => x.2.roomGroups) heq
                    simp only at h2
                    rw [authInviteTokenStep_roomGroups] at h2
                    rw [updateOrCreateUser_roomGroups] at h2
                    exact h2.symm

theorem bulkMembershipStep_roomGroups (plan : PlanRow) (acc : DB) (u : UserRow) :
    (bulkMembershipStep plan acc u).roomGroups = acc.roomGroups := by
  unfold bulkMembershipStep
  simp only
  split <;> split <;>
    simp [writePlanUser_roomGroups, getOrCreatePlanUser_roomGroups]

theorem foldl_bulkStep_roomGroups (plan : PlanRow) (ts : List UserRow) :
    ∀ d : DB, (ts.foldl (bulkMembershipStep plan) d).roomGroups = d.roomGroups := by
  induction ts with
  | nil => intro d; rfl
  | cons u rest ih =>
      intro d
      simp only [List.foldl_cons]
      rw [ih, bulkMembershipStep_roomGroups]

theorem planFriendsBulkTokenPost_roomGroups (cfg : Config)
    (delivery : Int → SendOutcome) (db : DB) (caller : UserRow)
    (planId : Nat) (uids : List Nat) (tokenId : String) (now : Int) :
    ((planFriendsBulkTokenPost cfg delivery db caller planId uids tokenId now).2).roomGroups =
      db.roomGroups := by
  unfold planFriendsBulkTokenPost
  repeat' split
  all_goals try simp [foldl_bulkStep_roomGroups]
  all_goals (split <;> simp [foldl_bulkStep_roomGroups])

theorem planSaveNew_roomGroups (db : DB) (uid : Nat) (e n l : String) (dt cr : Int) :
    ((planSaveNew db uid e n l dt cr).2).roomGroups = db.roomGroups := rfl

theorem planSaveNew_nextGroupId (db : DB) (uid : Nat) (e n l : String) (dt cr : Int) :
    ((planSaveNew db uid e n l dt cr).2).nextGroupId = db.nextGroupId := rfl

theorem planSaveNew_nextRoomId (db : DB) (uid : Nat) (e n l : String) (dt cr : Int) :
    ((planSaveNew db uid e n l dt cr).2).nextRoomId = db.nextRoomId := rfl

theorem getOrCreatePlanUser_nextGroupId (db : DB) (p u : Nat) (s : PUStatus) :
    ((getOrCreatePlanUser db p u s).2.2).nextGroupId = db.nextGroupId := by
  unfold getOrCreatePlanUser
  split <;> rfl

theorem getOrCreatePlanUser_nextRoomId (db : DB) (p u : Nat) (s : PUStatus) :
    ((getOrCreatePlanUser db p u s).2.2).nextRoomId = db.nextRoomId := by
  unfold getOrCreatePlanUser
  split <;> rfl

theorem writePlanUser_nextGroupId (db : DB) (r : PlanUserRow) :
    (db.writePlanUser r).nextGroupId = db.nextGroupId := rfl

theorem writePlanUser_nextRoomId (db : DB) (r : PlanUserRow) :
    (db.writePlanUser r).nextRoomId = db.nextRoomId := rfl

theorem ensureCreatorApproved_nextGroupId (db : DB) (pl : PlanRow) :
    (ensureCreatorApproved db pl).nextGroupId = db.nextGroupId := by
  unfold ensureCreatorApproved
  split
  rename_i pu created db1 heq
  have h1 : db1.nextGroupId = db.nextGroupId := by
    have h2 := congrArg (fun x => x.2.2.nextGroupId) heq
    simp only at h2
    rw [getOrCreatePlanUser_nextGroupId] at h2
    exact h2.symm
  by_cases hc : created = true <;> simp [hc, writePlanUser_nextGroupId, h1]

theorem ensureCreatorApproved_nextRoomId (db : DB) (pl : PlanRow) :
    (ensureCreatorApproved db pl).nextRoomId = db.nextRoomId := by
  unfold ensureCreatorApproved
  split
  rename_i pu created db1 heq
  have h1 : db1.nextRoomId = db.nextRoomId := by
    have h2 := congrArg (fun x => x.2.2.nextRoomId) heq
    simp only at h2
    rw [getOrCreatePlanUser_nextRoomId] at h2
    exact h2.symm
  by_cases hc : created = true <;> simp [hc, writePlanUser_nextRoomId, h1]

/-- C6 amended: roster entries are created only by plan creation (the
creator's entry), ApproveInvite AND RejectInvite (each idempotently adds
the caller's entry when the plan's room exists); Telegram authentication,
bulk invites and the public token lookup never touch the roster, and
eviction only removes entries. -/
theorem c6_amended_roster_sources :
    (∀ (db : DB) (callerId : Nat) (e n l : String) (dt cr : Int),
      ((planCreatePost db callerId e n l dt cr).2).roomGroups =
        db.roomGroups ++
          [{ gid := db.nextGroupId, userId := callerId, roomId := db.nextRoomId }]) ∧
    (∀ (db : DB) (callerId planId : Nat),
      ((planApprovePut db callerId planId).2).roomGroups = db.roomGroups ∨
      ∃ g : GroupRow,
        ((planApprovePut db callerId planId).2).roomGroups =
          db.roomGroups ++ [g] ∧ g.userId = callerId) ∧
    (∀ (db : DB) (callerId planId : Nat),
      ((planRejectPut db callerId planId).2).roomGroups = db.roomGroups ∨
      ∃ g : GroupRow,
        ((planRejectPut db callerId planId).2).roomGroups =
          db.roomGroups ++ [g] ∧ g.userId = callerId) ∧
    (∀ (H : HmacPrim) (L : ParseLib) (cfg : Config) (now : Int) (db : DB)
        (ids tok : String),
      ((telegramAuthPost H L cfg now db ids tok).2).roomGroups = db.roomGroups) ∧
    (∀ (cfg : Config) (delivery : Int → SendOutcome) (db : DB) (caller : UserRow)
        (planId : Nat) (uids : List Nat) (tokenId : String) (now : Int),
      ((planFriendsBulkTokenPost cfg delivery db caller planId uids
          tokenId now).2).roomGroups = db.roomGroups) ∧
    (∀ (cfg : Config) (db : DB) (token : String),
      (planTokenDetailGet cfg db token).2 = db) ∧
    (∀ (db : DB) (callerId roomId targetId : Nat),
      ∀ g ∈ ((removeUserFromRoomDelete db callerId roomId targetId).2).roomGroups,
        g ∈ db.roomGroups) := by
  refine ⟨?_, ?_, ?_, ?_, ?_, ?_, ?_⟩
  · intro db callerId e n l dt cr
    unfold planCreatePost
    simp only
    split <;>
      simp [ensureCreatorApproved_roomGroups, getOrCreatePlanUser_roomGroups,
        writePlanUser_roomGroups, ensureCreatorApproved_nextGroupId,
        getOrCreatePlanUser_nextGroupId, writePlanUser_nextGroupId,
        ensureCreatorApproved_nextRoomId, getOrCreatePlanUser_nextRoomId,
        writePlanUser_nextRoomId, planSaveNew_roomGroups, planSaveNew_nextGroupId,
        planSaveNew_nextRoomId]
  · intro db callerId planId
    unfold planApprovePut
    split
    · left; rfl
    · simp only
      split
      · rename_i room hroom
        unfold getOrCreateGroup
        split
        · left
          rw [updateOrCreatePlanUser_roomGroups]
        · right
          refine ⟨⟨((updateOrCreatePlanUser db planId callerId PUStatus.approved).2).nextGroupId, callerId, room.rid⟩, ?_, rfl⟩
          simp [updateOrCreatePlanUser_roomGroups]
      · left
        rw [updateOrCreatePlanUser_roomGroups]
  · intro db callerId planId
    unfold planRejectPut
    split
    · left; rfl
    · simp only
      split
      · rename_i room hroom
        unfold getOrCreateGroup
        split
        · left
          rw [updateOrCreatePlanUser_roomGroups]
        · right
          refine ⟨⟨((updateOrCreatePlanUser db planId callerId PUStatus.rejected).2).nextGroupId, callerId, room.rid⟩, ?_, rfl⟩
          simp [updateOrCreatePlanUser_roomGroups]
      · left
        rw [updateOrCreatePlanUser_roomGroups]
  · exact telegramAuthPost_roomGroups
  · exact planFriendsBulkTokenPost_roomGroups
  · intro cfg db token
    unfold planTokenDetailGet
    split
    · rfl
    · split <;> rfl
  · intro db callerId roomId targetId g hmem
    unfold removeUserFromRoomDelete at hmem
    split at hmem
    · exact hmem
    · split at hmem
      · exact hmem
      · split at hmem
        · exact hmem
        · split at hmem
          · exact hmem
          · split at hmem
            · exact hmem
            · split at hmem
              · exact hmem
              · simp only at hmem
                have h1 := (List.mem_filter.mp hmem).1
                revert h1
                split <;> intro h1
                · rwa [getOrCreatePlanUser_roomGroups] at h1
                · rw [writePlanUser_roomGroups, getOrCreatePlanUser_roomGroups] at h1
                  exact h1

/-! ## C7 — RemoveMemberFromRoom contract -/

/-- C7: RemoveMemberFromRoom — for a room whose owning plan resolves, a
caller who is not the plan's creator gets Forbidden with the store
untouched; the creator targeting themself gets InvalidInput (400); a
target user who exists but has no roster entry gets InvalidInput; and on
success the response is ok, exactly the target's roster row is deleted,
the target's membership is forced to removed_into_chat_group (other
membership rows unchanged), and users/plans/tokens/rooms are untouched. -/
theorem c7_remove_member_contract
    (db : DB) (callerId roomId targetId : Nat) (room : RoomRow) (plan : PlanRow)
    (hroom : db.rooms.find? (fun r => r.rid == roomId) = some room)
    (hplan : db.plans.find? (fun p => p.pid == room.planId) = some plan) :
    (plan.userId ≠ callerId →
      removeUserFromRoomDelete db callerId roomId targetId =
        (.forbidden "Только создатель плана может удалять пользователей из чат комнаты.", db)) ∧
    (plan.userId = callerId → targetId = callerId →
      removeUserFromRoomDelete db callerId roomId targetId =
        (.badRequest "Вы не можете удалить себя из комнаты.", db)) ∧
    (∀ tu : UserRow, plan.userId = callerId → targetId ≠ callerId →
      db.users.find? (fun u => u.uid == targetId) = some tu →
      db.roomGroups.find? (fun g => g.roomId == roomId && g.userId == targetId) = none →
      removeUserFromRoomDelete db callerId roomId targetId =
        (.badRequest "Пользователь не найден в этой чат комнате.", db)) ∧
    (∀ (tu : UserRow) (grp : GroupRow), plan.userId = callerId → targetId ≠ callerId →
      db.users.find? (fun u => u.uid == targetId) = some tu →
      db.roomGroups.find? (fun g => g.roomId == roomId && g.userId == targetId) = some grp →
      (removeUserFromRoomDelete db callerId roomId targetId).1 =
          .ok roomId targetId plan.pid ∧
      ((removeUserFromRoomDelete db callerId roomId targetId).2).roomGroups =
        db.roomGroups.filter (fun g => !(g.gid == grp.gid)) ∧
      (∃ r ∈ ((removeUserFromRoomDelete db callerId roomId targetId).2).planUsers,
        r.planId = plan.pid ∧ r.userId = targetId ∧
          r.status = PUStatus.removedIntoChatGroup) ∧
      (∀ r' ∈ ((removeUserFromRoomDelete db callerId roomId targetId).2).planUsers,
        r' ∈ db.planUsers ∨
          (r'.planId = plan.pid ∧ r'.userId = targetId ∧
            r'.status = PUStatus.removedIntoChatGroup)) ∧
      ((removeUserFromRoomDelete db callerId roomId targetId).2).users = db.users ∧
      ((removeUserFromRoomDelete db callerId roomId targetId).2).plans = db.plans ∧
      ((removeUserFromRoomDelete db callerId roomId targetId).2).tokens = db.tokens ∧
      ((removeUserFromRoomDelete db callerId roomId targetId).2).rooms = db.rooms) := by
  refine ⟨?_, ?_, ?_, ?_⟩
  · intro hown
    unfold removeUserFromRoomDelete
    rw [hroom]
    simp only
    rw [hplan]
    simp only
    rw [if_pos hown]
  · intro hown hself
    unfold removeUserFromRoomDelete
    rw [hroom]
    simp only
    rw [hplan]
    simp only
    rw [if_neg (by simp [hown]), if_pos hself]
  · intro tu hown hself hu hg
    unfold removeUserFromRoomDelete
    rw [hroom]
    simp only
    rw [hplan]
    simp only
    rw [if_neg (by simp [hown]), if_neg hself, hu]
    simp only
    rw [hg]
  · intro tu grp hown hself hu hg
    have hstep : removeUserFromRoomDelete db callerId roomId targetId =
        (let res := getOrCreatePlanUser db plan.pid targetId PUStatus.removedIntoChatGroup
         let db2 := if res.2.1 = true then res.2.2
           else (res.2.2).writePlanUser { res.1 with status := PUStatus.removedIntoChatGroup }
         (.ok roomId targetId plan.pid,
          { db2 with roomGroups := db2.roomGroups.filter (fun g => !(g.gid == grp.gid)) })) := by
      unfold removeUserFromRoomDelete
      rw [hroom]
      simp only
      rw [hplan]
      simp only
      rw [if_neg (by simp [hown]), if_neg hself, hu]
      simp only
      rw [hg]
    rw [hstep]
    simp only
    cases hf : db.planUsers.find?
        (fun r => r.planId == plan.pid && r.userId == targetId) with
    | none =>
        simp only [getOrCreatePlanUser, hf]
        refine ⟨trivial, rfl, ?_, ?_, rfl, rfl, rfl, rfl⟩
        · exact ⟨⟨db.nextPlanUserId, plan.pid, targetId,
            PUStatus.removedIntoChatGroup⟩,
            List.mem_append.mpr (Or.inr (List.mem_singleton.mpr rfl)), rfl, rfl, rfl⟩
        · intro r' hmem
          rcases List.mem_append.mp hmem with h | h
          · exact Or.inl h
          · simp at h
            subst h
            exact Or.inr ⟨rfl, rfl, rfl⟩
    | some r0 =>
        have hpred := List.find?_some hf
        simp only [Bool.and_eq_true, beq_iff_eq] at hpred
        simp only [getOrCreatePlanUser, hf, DB.writePlanUser]
        refine ⟨trivial, rfl, ?_, ?_, rfl, rfl, rfl, rfl⟩
        · refine ⟨{ r0 with status := PUStatus.removedIntoChatGroup }, ?_, hpred.1, hpred.2, rfl⟩
          refine List.mem_map.mpr ⟨r0, List.mem_of_find?_eq_some hf, ?_⟩
          rw [if_pos (by simp)]
        · intro r' hmem
          rcases List.mem_map.mp hmem with ⟨r1, hr1, heq⟩
          by_cases hpq : r1.puid == r0.puid
          · rw [if_pos hpq] at heq
            subst heq
            exact Or.inr ⟨hpred.1, hpred.2, rfl⟩
          · rw [if_neg hpq] at heq
            subst heq
            exact Or.inl hr1

theorem c7_remove_member_contract_witness :
    ((removeUserFromRoomDelete c7Db 1 1 2).1 = .ok 1 2 1) ∧
    (((removeUserFromRoomDelete c7Db 1 1 2).2).roomGroups =
      c7Db.roomGroups.filter (fun g => !(g.gid == c7Grp.gid))) ∧
    (removeUserFromRoomDelete c7Db 2 1 1 =
      (.forbidden "Только создатель плана может удалять пользователей из чат комнаты.", c7Db)) ∧
    (removeUserFromRoomDelete c7Db 1 1 1 =
      (.badRequest "Вы не можете удалить себя из комнаты.", c7Db)) := by
  have H := c7_remove_member_contract c7Db 1 1 2 c7Room c7Plan (by decide) (by decide)
  have H2 := c7_remove_member_contract c7Db 2 1 1 c7Room c7Plan (by decide) (by decide)
  have H3 := c7_remove_member_contract c7Db 1 1 1 c7Room c7Plan (by decide) (by decide)
  have Hiv := H.2.2.2 c7UserB c7Grp (by decide) (by decide) (by decide) (by decide)
  exact ⟨Hiv.1, Hiv.2.1, H2.1 (by decide), H3.2.1 (by decide) rfl⟩

/-! ## C8 — authentication is not atomic on invite-token failure -/

theorem updateOrCreateUser_tokens (db : DB) (tid : Int) (ud : UserData) :
    ((updateOrCreateUser db tid ud).2).tokens = db.tokens := by
  unfold updateOrCreateUser
  split <;> rfl

theorem updateOrCreateUser_persists (db : DB) (tid : Int) (ud : UserData) :
    ∃ u ∈ ((updateOrCreateUser db tid ud).2).users, u.tg_id = some tid := by
  unfold updateOrCreateUser
  cases hf : db.users.find? (fun u => u.tg_id == some tid) with
  | some u0 =>
      simp only
      refine ⟨applyAuthDefaults u0 tid ud, ?_, rfl⟩
      refine List.mem_map.mpr ⟨u0, List.mem_of_find?_eq_some hf, ?_⟩
      rw [if_pos (by simp)]
  | none =>
      simp only
      exact ⟨_, List.mem_append.mpr (Or.inr (List.mem_singleton.mpr rfl)), rfl⟩

/-- C8: when Telegram authentication fails with InvalidInput because the
supplied invite token exists but is not usable (deactivated, expired, or
use-limit reached — the reason chosen in that order by `tokenErrorMsg`),
the user upsert performed earlier in the same call has already been
applied and persists: the resulting store is exactly the upserted store,
which contains a user with the authenticated Telegram id. -/
theorem c8_auth_token_error_not_atomic
    (H : HmacPrim) (L : ParseLib) (cfg : Config) (now : Int) (db : DB)
    (ids tokenRaw ujson : String) (fields : List (String × String))
    (ud : UserData) (tid : Int) (t : TokenRow)
    (hids : ids ≠ "")
    (hqs : L.parseQs ids = fields.map (fun p => (p.1, [p.2])))
    (hu : lookupStr fields "user" = some ujson)
    (hujson : ujson ≠ "")
    (hjp : L.jsonLoads ujson = some ud)
    (hca : check_auth H (strData fields) cfg.telegramBotToken now = .ok true)
    (hid : ud.id = some tid)
    (htid : tid ≠ 0)
    (htk : pyStripStr tokenRaw ≠ "")
    (hfind : db.tokens.find? (fun tk => tk.token == pyStripStr tokenRaw) = some t)
    (hinvalid : t.can_be_used now = false) :
    (telegramAuthPost H L cfg now db ids tokenRaw).1 =
      .badRequest (tokenErrorMsg t now) ∧
    (telegramAuthPost H L cfg now db ids tokenRaw).2 =
      (updateOrCreateUser db tid ud).2 ∧
    ∃ u ∈ ((telegramAuthPost H L cfg now db ids tokenRaw).2).users,
      u.tg_id = some tid := by
  have hstep : telegramAuthPost H L cfg now db ids tokenRaw =
      (.badRequest (tokenErrorMsg t now), (updateOrCreateUser db tid ud).2) := by
    unfold telegramAuthPost
    rw [if_neg hids]
    simp only [hqs, collapseParsed_singletons, lookupVal_strData, hu, Option.map_some']
    rw [if_neg (by simp [Val.truthy, hujson])]
    simp only [hjp, hca, hid]
    rw [if_neg htid]
    unfold authInviteTokenStep
    rw [if_neg htk]
    rw [updateOrCreateUser_tokens, hfind]
    simp only
    rw [if_pos (by simp [hinvalid])]
  refine ⟨?_, ?_, ?_⟩
  · rw [hstep]
  · rw [hstep]
  · rw [hstep]
    exact updateOrCreateUser_persists db tid ud

theorem c8_auth_token_error_not_atomic_witness :
    ((telegramAuthPost c8Hmac c8Lib c8Cfg 100 c8Db "x" "tok1").1 =
      .badRequest (tokenErrorMsg c8Token 100)) ∧
    ((telegramAuthPost c8Hmac c8Lib c8Cfg 100 c8Db "x" "tok1").2 =
      (updateOrCreateUser c8Db 7 c8Ud).2) ∧
    (∃ u ∈ ((telegramAuthPost c8Hmac c8Lib c8Cfg 100 c8Db "x" "tok1").2).users,
      u.tg_id = some 7) :=
  c8_auth_token_error_not_atomic c8Hmac c8Lib c8Cfg 100 c8Db "x" "tok1" "{}"
    c8Fields c8Ud 7 c8Token
    (by decide) rfl (by decide) (by decide) rfl rfl rfl (by decide)
    (by decide) (by decide) (by decide)

/-- C9 counterexample: for a token past its expiry whose active flag is
still true, the public lookup does leave the row untouched, but the
response does NOT carry the stale active flag or a computed validity:
`GenerateTokenPlanSerializer` serializes exactly
`('id', 'token', 'link', 'msg')`, so the claim's "returned with that
stale flag (plus computed validity false)" fails. -/
theorem c9_token_lookup_response_example :
    (c9Token.is_active = true) ∧
    (expiryPassed c9Token.expires_at 2000 = true) ∧
    ((planTokenDetailGet c9Cfg c9Db "tok9").2 = c9Db) ∧
    ((match (planTokenDetailGet c9Cfg c9Db "tok9").1 with
      | .ok fields =>
          (fields.find? (fun p => p.1 == "is_active")).isNone &&
          (fields.find? (fun p => p.1 == "is_valid")).isNone &&
          ((fields.map (fun p => p.1)) == ["id", "token", "link", "msg"])
      | _ => false) = true) := by
  refine ⟨rfl, rfl, rfl, ?_⟩
  decide

/-- C9 amended: GetTokenInfo performs no write — for every store and
token string the store after the lookup is the store before it (so the
save-time auto-deactivation is never triggered by the lookup), and a
successful response carries exactly the fields id, token, link and msg
(no active flag and no computed validity). -/
theorem c9_amended_token_lookup_no_write :
    (∀ (cfg : Config) (db : DB) (token : String),
      (planTokenDetailGet cfg db token).2 = db) ∧
    (∀ (cfg : Config) (db : DB) (token : String)
        (fields : List (String × JVal)),
      (planTokenDetailGet cfg db token).1 = .ok fields →
        fields.map (fun p => p.1) = ["id", "token", "link", "msg"]) := by
  constructor
  · intro cfg db token
    unfold planTokenDetailGet
    split
    · rfl
    · split <;> rfl
  · intro cfg db token fields h
    unfold planTokenDetailGet at h
    split at h
    · cases h
    · rename_i t hfind
      cases hser : serializeGenerateTokenPlan cfg db t with
      | none =>
          rw [hser] at h
          cases h
      | some fl =>
          rw [hser] at h
          simp only at h
          cases h
          unfold serializeGenerateTokenPlan at hser
          split at hser
          · cases hser
          · split at hser
            · cases hser
            · simp only [Option.some.injEq] at hser
              subst hser
              rfl

theorem c9_amended_token_lookup_no_write_witness :
    ((planTokenDetailGet c9Cfg c9Db "tok9").2 = c9Db) ∧
    ((match (planTokenDetailGet c9Cfg c9Db "tok9").1 with
      | .ok fields => fields.map (fun p => p.1)
      | _ => []) = ["id", "token", "link", "msg"]) := by
  refine ⟨c9_amended_token_lookup_no_write.1 c9Cfg c9Db "tok9", ?_⟩
  cases hx : (planTokenDetailGet c9Cfg c9Db "tok9").1 with
  | ok fields =>
      exact c9_amended_token_lookup_no_write.2 c9Cfg c9Db "tok9" fields hx
  | notFound => exact absurd hx (by decide)
  | integrityError => exact absurd hx (by decide)

theorem pkInv_eq_of_puid (db : DB) (hpk : PkInv db)
    {r s : PlanUserRow} (hr : r ∈ db.planUsers) (hs : s ∈ db.planUsers)
    (h : r.puid = s.puid) : r = s := by
  by_contra hne
  exact (hpk.2.forall (fun a b hab => hab.symm) hr hs hne) h

theorem step_pkinv (plan : PlanRow) (acc : DB) (u : UserRow)
    (hpk : PkInv acc) : PkInv (bulkMembershipStep plan acc u) := by
  unfold bulkMembershipStep
  simp only
  cases hf : acc.planUsers.find?
      (fun r => r.planId == plan.pid && r.userId == u.uid) with
  | none =>
      simp only [getOrCreatePlanUser, hf]
      rw [if_neg (by simp)]
      constructor
      · intro r hr
        rcases List.mem_append.mp hr with h | h
        · exact Nat.lt_succ_of_lt (hpk.1 r h)
        · simp at h
          subst h
          exact Nat.lt_succ_self _
      · rw [List.pairwise_append]
        refine ⟨hpk.2, List.pairwise_singleton _ _, ?_⟩
        intro a ha b hb
        simp at hb
        subst hb
        exact Nat.ne_of_lt (hpk.1 a ha)
  | some r0 =>
      simp only [getOrCreatePlanUser, hf]
      split
      · constructor
        · intro r hr
          simp only [DB.writePlanUser] at hr ⊢
          rcases List.mem_map.mp hr with ⟨r1, hr1, heq⟩
          by_cases hpq : r1.puid == r0.puid
          · rw [if_pos hpq] at heq
            subst heq
            simp only [beq_iff_eq] at hpq
            simpa [← hpq] using hpk.1 r1 hr1
          · rw [if_neg hpq] at heq
            subst heq
            exact hpk.1 r1 hr1
        · simp only [DB.writePlanUser]
          refine List.Pairwise.map _ ?_ hpk.2
          intro a b hab
          by_cases ha : a.puid == r0.puid <;> by_cases hb : b.puid == r0.puid <;>
            simp only [ha, hb, if_pos, if_neg, if_true, if_false] <;>
            simp_all
      · exact hpk

theorem step_mem_establish (plan : PlanRow) (acc : DB) (u : UserRow) :
    ∃ r ∈ (bulkMembershipStep plan acc u).planUsers,
      r.planId = plan.pid ∧ r.userId = u.uid := by
  unfold bulkMembershipStep
  simp only
  cases hf : acc.planUsers.find?
      (fun r => r.planId == plan.pid && r.userId == u.uid) with
  | none =>
      simp only [getOrCreatePlanUser, hf]
      rw [if_neg (by simp)]
      exact ⟨_, List.mem_append.mpr (Or.inr (List.mem_singleton.mpr rfl)), rfl, rfl⟩
  | some r0 =>
      have hpred := List.find?_some hf
      simp only [Bool.and_eq_true, beq_iff_eq] at hpred
      simp only [getOrCreatePlanUser, hf]
      split
      · refine ⟨{ r0 with status := PUStatus.approved }, ?_, hpred.1, hpred.2⟩
        simp only [DB.writePlanUser]
        exact List.mem_map.mpr ⟨r0, List.mem_of_find?_eq_some hf, by rw [if_pos (by simp)]⟩
      · exact ⟨r0, List.mem_of_find?_eq_some hf, hpred.1, hpred.2⟩

theorem step_mem_preserve (plan : PlanRow) (acc : DB) (u : UserRow)
    (hpk : PkInv acc) (pid0 uid0 : Nat)
    (hex : ∃ r ∈ acc.planUsers, r.planId = pid0 ∧ r.userId = uid0) :
    ∃ r ∈ (bulkMembershipStep plan acc u).planUsers,
      r.planId = pid0 ∧ r.userId = uid0 := by
  obtain ⟨r, hr, h1, h2⟩ := hex
  unfold bulkMembershipStep
  simp only
  cases hf : acc.planUsers.find?
      (fun q => q.planId == plan.pid && q.userId == u.uid) with
  | none =>
      simp only [getOrCreatePlanUser, hf]
      rw [if_neg (by simp)]
      exact ⟨r, List.mem_append.mpr (Or.inl hr), h1, h2⟩
  | some r0 =>
      simp only [getOrCreatePlanUser, hf]
      split
      · by_cases hpq : r.puid = r0.puid
        · have : r = r0 := pkInv_eq_of_puid acc hpk hr
            (List.mem_of_find?_eq_some hf) hpq
          subst this
          refine ⟨{ r with status := PUStatus.approved }, ?_, h1, h2⟩
          simp only [DB.writePlanUser]
          exact List.mem_map.mpr ⟨r, hr, by rw [if_pos (by simp)]⟩
        · refine ⟨r, ?_, h1, h2⟩
          simp only [DB.writePlanUser]
          exact List.mem_map.mpr ⟨r, hr, by rw [if_neg (by simp [hpq])]⟩
      · exact ⟨r, hr, h1, h2⟩

theorem foldl_mem_preserve (plan : PlanRow) (ts : List UserRow) :
    ∀ (d : DB), PkInv d → ∀ (pid0 uid0 : Nat),
      (∃ r ∈ d.planUsers, r.planId = pid0 ∧ r.userId = uid0) →
      ∃ r ∈ (ts.foldl (bulkMembershipStep plan) d).planUsers,
        r.planId = pid0 ∧ r.userId = uid0 := by
  induction ts with
  | nil => intro d _ pid0 uid0 hex; exact hex
  | cons u rest ih =>
      intro d hpk pid0 uid0 hex
      simp only [List.foldl_cons]
      exact ih _ (step_pkinv plan d u hpk) pid0 uid0
        (step_mem_preserve plan d u hpk pid0 uid0 hex)

theorem foldl_mem_targets (plan : PlanRow) (ts : List UserRow) :
    ∀ (d : DB), PkInv d → ∀ u ∈ ts,
      ∃ r ∈ (ts.foldl (bulkMembershipStep plan) d).planUsers,
        r.planId = plan.pid ∧ r.userId = u.uid := by
  induction ts with
  | nil => intro d _ u hu; cases hu
  | cons v rest ih =>
      intro d hpk u hu
      simp only [List.foldl_cons]
      rcases List.mem_cons.mp hu with h | h
      · subst h
        exact foldl_mem_preserve plan rest _ (step_pkinv plan d u hpk) plan.pid u.uid
          (step_mem_establish plan d u)
      · exact ih _ (step_pkinv plan d v hpk) u h

theorem bulkMembershipStep_tokens (plan : PlanRow) (acc : DB) (u : UserRow) :
    (bulkMembershipStep plan acc u).tokens = acc.tokens := by
  unfold bulkMembershipStep
  simp only
  split <;> split <;>
    simp [DB.writePlanUser, getOrCreatePlanUser] <;>
    split <;> simp_all

theorem foldl_bulkStep_tokens (plan : PlanRow) (ts : List UserRow) :
    ∀ d : DB, (ts.foldl (bulkMembershipStep plan) d).tokens = d.tokens := by
  induction ts with
  | nil => intro d; rfl
  | cons u rest ih =>
      intro d
      simp only [List.foldl_cons]
      rw [ih, bulkMembershipStep_tokens]

/-- C10: when the bulk-invite endpoint fails with InvalidInput because no
bot credential is configured, the shared invite token (max-uses = number
of targets + 5, 30-day expiry, active) and the per-target memberships
have already been created and persist in the resulting store; only the
Telegram delivery step is skipped.  `PkInv` is the membership table's
primary-key integrity, guaranteed by the relational store. -/
theorem c10_bulk_invite_not_atomic
    (cfg : Config) (delivery : Int → SendOutcome) (db : DB) (caller : UserRow)
    (planId : Nat) (uids : List Nat) (tokenId : String) (now : Int) (plan : PlanRow)
    (hplan : db.plans.find? (fun p => p.pid == planId) = some plan)
    (hown : plan.userId = caller.uid)
    (hcount : (db.users.filter (fun u => uids.contains u.uid)).length = uids.length)
    (hbot : cfg.telegramBotToken = "")
    (hpk : PkInv db) :
    ((planFriendsBulkTokenPost cfg delivery db caller planId uids tokenId now).1 =
      .badRequest "TELEGRAM_BOT_TOKEN не настроен. Добавьте токен бота в .env или настройки.") ∧
    (((planFriendsBulkTokenPost cfg delivery db caller planId uids tokenId now).2).tokens =
      db.tokens ++
        [TokenRow.saveRow
          { tokId := tokenId, token := deriveToken tokenId, planId := plan.pid,
            createdBy := caller.uid, expires_at := some (now + 30 * 86400),
            max_uses := (uids.length : Int) + 5, current_uses := 0,
            is_active := true } now]) ∧
    ((TokenRow.saveRow
        { tokId := tokenId, token := deriveToken tokenId, planId := plan.pid,
          createdBy := caller.uid, expires_at := some (now + 30 * 86400),
          max_uses := (uids.length : Int) + 5, current_uses := 0,
          is_active := true } now).is_active = true ∧
      (TokenRow.saveRow
        { tokId := tokenId, token := deriveToken tokenId, planId := plan.pid,
          createdBy := caller.uid, expires_at := some (now + 30 * 86400),
          max_uses := (uids.length : Int) + 5, current_uses := 0,
          is_active := true } now).max_uses = (uids.length : Int) + 5 ∧
      (TokenRow.saveRow
        { tokId := tokenId, token := deriveToken tokenId, planId := plan.pid,
          createdBy := caller.uid, expires_at := some (now + 30 * 86400),
          max_uses := (uids.length : Int) + 5, current_uses := 0,
          is_active := true } now).expires_at = some (now + 30 * 86400)) ∧
    (∀ u ∈ db.users.filter (fun u => uids.contains u.uid),
      ∃ r ∈ ((planFriendsBulkTokenPost cfg delivery db caller planId uids
          tokenId now).2).planUsers,
        r.planId = plan.pid ∧ r.userId = u.uid) := by
  have hrow : TokenRow.saveRow
      { tokId := tokenId, token := deriveToken tokenId, planId := plan.pid,
        createdBy := caller.uid, expires_at := some (now + 30 * 86400),
        max_uses := (uids.length : Int) + 5, current_uses := 0,
        is_active := true } now =
      { tokId := tokenId, token := deriveToken tokenId, planId := plan.pid,
        createdBy := caller.uid, expires_at := some (now + 30 * 86400),
        max_uses := (uids.length : Int) + 5, current_uses := 0,
        is_active := true } := by
    unfold TokenRow.saveRow
    by_cases ht : deriveToken tokenId = "" <;>
      simp [ht, expiryPassed, show ¬(now > now + 30 * 86400) from by omega,
        show ¬((0 : Int) ≥ (uids.length : Int) + 5) from by
          have : (0 : Int) ≤ (uids.length : Int) := Int.ofNat_nonneg _
          omega]
  have hstep : planFriendsBulkTokenPost cfg delivery db caller planId uids tokenId now =
      (.badRequest "TELEGRAM_BOT_TOKEN не настроен. Добавьте токен бота в .env или настройки.",
       (db.users.filter (fun u => uids.contains u.uid)).foldl (bulkMembershipStep plan)
         { db with tokens := db.tokens ++
             [TokenRow.saveRow
               { tokId := tokenId, token := deriveToken tokenId, planId := plan.pid,
                 createdBy := caller.uid, expires_at := some (now + 30 * 86400),
                 max_uses := (uids.length : Int) + 5, current_uses := 0,
                 is_active := true } now] }) := by
    unfold planFriendsBulkTokenPost
    rw [hplan]
    simp only
    rw [if_neg (by simp [hown]),
      if_neg (not_ne_iff.mpr hcount), if_pos hbot]
  refine ⟨?_, ?_, ?_, ?_⟩
  · rw [hstep]
  · rw [hstep]
    show (List.foldl (bulkMembershipStep plan) _ _).tokens = _
    rw [foldl_bulkStep_tokens]
  · rw [hrow]
    exact ⟨rfl, rfl, rfl⟩
  · intro u hu
    rw [hstep]
    exact foldl_mem_targets plan
      (db.users.filter (fun u => uids.contains u.uid))
      { db with tokens := db.tokens ++
          [TokenRow.saveRow
            { tokId := tokenId, token := deriveToken tokenId, planId := plan.pid,
              createdBy := caller.uid, expires_at := some (now + 30 * 86400),
              max_uses := (uids.length : Int) + 5, current_uses := 0,
              is_active := true } now] }
      hpk u hu

theorem c10_bulk_invite_not_atomic_witness :
    ((planFriendsBulkTokenPost c10Cfg (fun _ => .ok200) c10Db c10Caller 1 [2]
        "ab-cd" 0).1 =
      .badRequest "TELEGRAM_BOT_TOKEN не настроен. Добавьте токен бота в .env или настройки.") ∧
    (((planFriendsBulkTokenPost c10Cfg (fun _ => .ok200) c10Db c10Caller 1 [2]
        "ab-cd" 0).2).tokens =
      c10Db.tokens ++
        [TokenRow.saveRow
          { tokId := "ab-cd", token := deriveToken "ab-cd", planId := c10Plan.pid,
            createdBy := c10Caller.uid, expires_at := some (0 + 30 * 86400),
            max_uses := (([2] : List Nat).length : Int) + 5, current_uses := 0,
            is_active := true } 0]) ∧
    ((TokenRow.saveRow
        { tokId := "ab-cd", token := deriveToken "ab-cd", planId := c10Plan.pid,
          createdBy := c10Caller.uid, expires_at := some (0 + 30 * 86400),
          max_uses := (([2] : List Nat).length : Int) + 5, current_uses := 0,
          is_active := true } 0).is_active = true ∧
      (TokenRow.saveRow
        { tokId := "ab-cd", token := deriveToken "ab-cd", planId := c10Plan.pid,
          createdBy := c10Caller.uid, expires_at := some (0 + 30 * 86400),
          max_uses := (([2] : List Nat).length : Int) + 5, current_uses := 0,
          is_active := true } 0).max_uses = (([2] : List Nat).length : Int) + 5 ∧
      (TokenRow.saveRow
        { tokId := "ab-cd", token := deriveToken "ab-cd", planId := c10Plan.pid,
          createdBy := c10Caller.uid, expires_at := some (0 + 30 * 86400),
          max_uses := (([2] : List Nat).length : Int) + 5, current_uses := 0,
          is_active := true } 0).expires_at = some (0 + 30 * 86400)) ∧
    (∀ u ∈ c10Db.users.filter (fun u => ([2] : List Nat).contains u.uid),
      ∃ r ∈ ((planFriendsBulkTokenPost c10Cfg (fun _ => .ok200) c10Db c10Caller 1 [2]
          "ab-cd" 0).2).planUsers,
        r.planId = c10Plan.pid ∧ r.userId = u.uid) :=
  c10_bulk_invite_not_atomic c10Cfg (fun _ => .ok200) c10Db c10Caller 1 [2]
    "ab-cd" 0 c10Plan (by decide) rfl (by decide) rfl
    ⟨by decide, by decide⟩

end EventPlanner
